import Mathlib

/-
Verification of `alipay_to_ofx.py`, a converter from Alipay plain-text
statement exports to OFX documents.  Python strings are modelled as Lean
`String`s; the Python string methods used by the source (`strip`,
`split`, `startswith`, slicing) are embedded as structurally recursive
functions over the underlying character lists so that every definition
is executable.  Python exceptions are modelled with `Except PyError`;
fallible external calls (file decoding, the translation HTTP call, the
csv tokenizer) are abstracted as function parameters.
-/

deriving instance DecidableEq for Except

namespace AlipayToOfx

/-- Python exception kinds raised by the code paths modelled here. -/
inductive PyError where
  | indexError
  | valueError
  | typeError
  | unicodeDecodeError
  | unboundLocalError
deriving DecidableEq

/-- Python whitespace test used by `str.strip()` and `str.split()`: the
characters for which CPython's `str.isspace()` holds, namely U+0009 to
U+000D, U+001C to U+001F, U+0020, U+0085, U+00A0, U+1680, U+2000 to
U+200A, U+2028, U+2029, U+202F, U+205F and U+3000 (the whitespace table
of CPython's `unicodetype_db.h`). -/
def pyIsSpace (c : Char) : Bool :=
  (9 ≤ c.toNat && c.toNat ≤ 13) || (28 ≤ c.toNat && c.toNat ≤ 31)
    || c.toNat = 32 || c.toNat = 133 || c.toNat = 160 || c.toNat = 5760
    || (8192 ≤ c.toNat && c.toNat ≤ 8202) || c.toNat = 8232
    || c.toNat = 8233 || c.toNat = 8239 || c.toNat = 8287
    || c.toNat = 12288

/-- Python `str.strip()`: drop leading and trailing whitespace. -/
def pyStrip (l : List Char) : List Char :=
  ((l.dropWhile pyIsSpace).reverse.dropWhile pyIsSpace).reverse

/-- Python `str.split(sep)` for a one-character separator, generalised to
a predicate on the separator character.  Empty pieces are kept, and
splitting the empty string yields one empty piece, as in Python. -/
def pySplitP (p : Char → Bool) (l : List Char) : List (List Char) :=
  l.foldr (fun c acc =>
    match acc with
    | a :: as => if p c then [] :: a :: as else (c :: a) :: as
    | [] => [[c]]) [[]]

/-- Python `str.split(sep)` with a one-character separator `sep`. -/
def pySplitChar (sep : Char) (l : List Char) : List (List Char) :=
  pySplitP (fun c => c = sep) l

/-- Python `str.split()` with no argument: split on whitespace runs and
drop the empty pieces. -/
def pySplitWs (l : List Char) : List (List Char) :=
  (pySplitP pyIsSpace l).filter (fun a => !a.isEmpty)

/-- Python `xs[i]`, which raises `IndexError` when `i` is out of range. -/
def pyIndex (l : List α) (i : Nat) : Except PyError α :=
  match l[i]? with
  | some x => Except.ok x
  | none => Except.error PyError.indexError

/-- Python string slicing `s[1:]` at character level. -/
def pyDrop1 (l : List Char) : List Char := l.drop 1

/-- Python `str.startswith(pre)`. -/
def pyStartsWith (s pre : List Char) : Bool := pre.isPrefixOf s

/-- One parsed transaction row: the sixteen string fields that the loop
at lines 77-94 of `alipay_to_ofx.py` reads out of a delimited row. -/
structure TransactionRecord where
  transaction_id : String := ""
  merchant_order_id : String := ""
  transaction_create_time : String := ""
  payment_time : String := ""
  last_modified_time : String := ""
  transaction_source : String := ""
  type : String := ""
  counterparty : String := ""
  item_name : String := ""
  amount_cny : String := ""
  income_or_expense : String := ""
  transaction_status : String := ""
  service_fee : String := ""
  successful_refund : String := ""
  remarks : String := ""
  fund_status : String := ""
deriving DecidableEq

/-- Python `row[i].strip()` as a total function.  The caller guards
`len(row) >= 17`, so each index used below is in range; an out-of-range
read defaults to `""` and is unreachable under that guard. -/
def stripField (row : List String) (i : Nat) : String :=
  ⟨pyStrip (row.getD i "").data⟩

/-- The dictionary built for one accepted row at lines 77-94 of
`alipay_to_ofx.py`. -/
def rowToRecord (row : List String) : TransactionRecord :=
  { transaction_id := stripField row 0
    merchant_order_id := stripField row 1
    transaction_create_time := stripField row 2
    payment_time := stripField row 3
    last_modified_time := stripField row 4
    transaction_source := stripField row 5
    type := stripField row 6
    counterparty := stripField row 7
    item_name := stripField row 8
    amount_cny := stripField row 9
    income_or_expense := stripField row 10
    transaction_status := stripField row 11
    service_fee := stripField row 12
    successful_refund := stripField row 13
    remarks := stripField row 14
    fund_status := stripField row 15 }

/-- Embeds the transaction-row loop of `parse_alipay_file`
(`alipay_to_ofx.py` lines 73-94): a delimited row is skipped when it has
fewer than 17 fields (`if len(row) < 17: continue`) and otherwise
contributes one record built from its first sixteen fields.  The rows
are the csv tokenizer's output for the lines after the header line. -/
def parseTransactions : List (List String) → List TransactionRecord
  | [] => []
  | row :: rest =>
    if row.length < 17 then parseTransactions rest
    else rowToRecord row :: parseTransactions rest

/-- Python dict assignment `d[k] = v` on the association-list model of a
dict: overwrite the entry when the key is present, append otherwise. -/
def dictAssign (m : List (String × String)) (k v : String) :
    List (String × String) :=
  if (m.lookup k).isSome then
    m.map (fun p => if p.1 = k then (k, v) else p)
  else m ++ [(k, v)]

/-- Embeds `translate_field` (`alipay_to_ofx.py` lines 160-172).  The
Python dict of cached translations is an association list; `f` abstracts
the underlying `translate_text(text, target_lang, api_key)` network
call.  The third component counts how many times `f` was applied (0 or
1) so that claims about invoking the underlying translator can be
stated.  The final dict access `translations[text]` cannot fail because
the key was just ensured present; the `getD ""` default is unreachable. -/
def translate_field (f : String → String)
    (translations : List (String × String)) (text : String) :
    String × List (String × String) × Nat :=
  let (translations2, calls) :=
    if (translations.lookup text).isNone
    then (dictAssign translations text (f text), 1)
    else (translations, 0)
  (((translations2.lookup text).getD "") ++ " (" ++ text ++ ")",
    translations2, calls)

/-- ASCII digit test, the `\d` of CPython's `_strptime` regex.  (That
regex also accepts other Unicode decimal digits, which normalise to the
same parsed values; none of the claims involve them.) -/
def isDig (c : Char) : Bool := 48 ≤ c.toNat && c.toNat ≤ 57

/-- Numeric value of an ASCII digit character. -/
def dval (c : Char) : Nat := c.toNat - 48

/-- Calendar timestamp produced by `datetime.strptime`. -/
structure PyDatetime where
  year : Nat
  month : Nat
  day : Nat
  hour : Nat
  minute : Nat
  second : Nat
deriving DecidableEq

/-- The `%Y` pattern of CPython `_strptime`: exactly four digits. -/
def parseYear4 : List Char → Option (Nat × List Char)
  | c1 :: c2 :: c3 :: c4 :: r =>
    if isDig c1 && isDig c2 && isDig c3 && isDig c4 then
      some (((dval c1 * 10 + dval c2) * 10 + dval c3) * 10 + dval c4, r)
    else none
  | _ => none

/-- The `%m` pattern of CPython `_strptime` (regex `1[0-2]|0[1-9]|[1-9]`;
alternatives tried in order, character classes written as code ranges:
48-50 is `[0-2]`, 49-57 is `[1-9]`).  Because the character following
the field in the format is never a digit, regex backtracking cannot
change the outcome, so the ordered-alternative reading used here is
exact. -/
def parseMonth : List Char → Option (Nat × List Char)
  | c1 :: c2 :: r =>
    if c1 == '1' && (48 ≤ c2.toNat && c2.toNat ≤ 50) then
      some (10 + dval c2, r)
    else if c1 == '0' && (49 ≤ c2.toNat && c2.toNat ≤ 57) then
      some (dval c2, r)
    else if 49 ≤ c1.toNat && c1.toNat ≤ 57 then some (dval c1, c2 :: r)
    else none
  | [c] => if 49 ≤ c.toNat && c.toNat ≤ 57 then some (dval c, []) else none
  | [] => none

/-- The `%d` pattern of CPython `_strptime`
(regex `3[01]|[12]\d|0[1-9]|[1-9]`, same conventions as `parseMonth`). -/
def parseDay : List Char → Option (Nat × List Char)
  | c1 :: c2 :: r =>
    if c1 == '3' && (48 ≤ c2.toNat && c2.toNat ≤ 49) then
      some (30 + dval c2, r)
    else if (49 ≤ c1.toNat && c1.toNat ≤ 50) && isDig c2 then
      some (10 * dval c1 + dval c2, r)
    else if c1 == '0' && (49 ≤ c2.toNat && c2.toNat ≤ 57) then
      some (dval c2, r)
    else if 49 ≤ c1.toNat && c1.toNat ≤ 57 then some (dval c1, c2 :: r)
    else none
  | [c] => if 49 ≤ c.toNat && c.toNat ≤ 57 then some (dval c, []) else none
  | [] => none

/-- The `%H` pattern of CPython `_strptime` (regex `2[0-3]|[0-1]\d|\d`,
same conventions as `parseMonth`). -/
def parseHour : List Char → Option (Nat × List Char)
  | c1 :: c2 :: r =>
    if c1 == '2' && (48 ≤ c2.toNat && c2.toNat ≤ 51) then
      some (20 + dval c2, r)
    else if (48 ≤ c1.toNat && c1.toNat ≤ 49) && isDig c2 then
      some (10 * dval c1 + dval c2, r)
    else if isDig c1 then some (dval c1, c2 :: r)
    else none
  | [c] => if isDig c then some (dval c, []) else none
  | [] => none

/-- The `%M` and `%S` patterns of CPython `_strptime`
(regex `[0-5]\d|\d`). -/
def parseMinSec : List Char → Option (Nat × List Char)
  | c1 :: c2 :: r =>
    if (48 ≤ c1.toNat && c1.toNat ≤ 53) && isDig c2 then
      some (10 * dval c1 + dval c2, r)
    else if isDig c1 then some (dval c1, c2 :: r)
    else none
  | [c] => if isDig c then some (dval c, []) else none
  | [] => none

/-- A literal character of the `strptime` format string. -/
def expectChar (c : Char) : List Char → Option (List Char)
  | x :: r => if x == c then some r else none
  | [] => none

/-- Gregorian leap-year rule used by `datetime`. -/
def isLeapYear (y : Nat) : Bool :=
  y % 4 == 0 && (y % 100 != 0 || y % 400 == 0)

/-- Length of a month, as validated by the `datetime` constructor. -/
def daysInMonth (y m : Nat) : Nat :=
  if m == 2 then (if isLeapYear y then 29 else 28)
  else if m == 4 || m == 6 || m == 9 || m == 11 then 30
  else 31

/-- CPython `datetime.strptime(s, "%Y-%m-%d %H:%M:%S")`: the field
regexes must consume the whole string (a shorter match raises
`ValueError` through the length check in `_strptime`), and the
`datetime` constructor then validates the calendar date (year at least
1, day at most the month's length; the hour, minute and second ranges
are already enforced by the regex).  `none` models the `ValueError`. -/
def strptimeYmdHms (l : List Char) : Option PyDatetime := do
  let (y, r1) ← parseYear4 l
  let r2 ← expectChar '-' r1
  let (mo, r3) ← parseMonth r2
  let r4 ← expectChar '-' r3
  let (d, r5) ← parseDay r4
  let r6 ← expectChar ' ' r5
  let (h, r7) ← parseHour r6
  let r8 ← expectChar ':' r7
  let (mi, r9) ← parseMinSec r8
  let r10 ← expectChar ':' r9
  let (s, r11) ← parseMinSec r10
  if r11.isEmpty && 1 ≤ y && d ≤ daysInMonth y mo then
    some ⟨y, mo, d, h, mi, s⟩
  else none

/-- One decimal digit as a character; values here are always below 10. -/
def digitChar : Nat → Char
  | 0 => '0'
  | 1 => '1'
  | 2 => '2'
  | 3 => '3'
  | 4 => '4'
  | 5 => '5'
  | 6 => '6'
  | 7 => '7'
  | 8 => '8'
  | 9 => '9'
  | _ => '*'

/-- CPython `strftime` zero-padded numeric directive of width 2 (`%m`,
`%d`, `%H`, `%M`, `%S`); every value it is applied to here is below
100. -/
def pad2 (n : Nat) : List Char := [digitChar (n / 10 % 10), digitChar (n % 10)]

/-- CPython `strftime` `%Y` directive, zero-padded to width 4 as in the
Python documentation; the parsed year is always below 10000. -/
def pad4 (n : Nat) : List Char :=
  [digitChar (n / 1000 % 10), digitChar (n / 100 % 10),
    digitChar (n / 10 % 10), digitChar (n % 10)]

/-- `dt.strftime("%Y%m%d%H%M%S")`. -/
def strftimeDigits (dt : PyDatetime) : List Char :=
  pad4 dt.year ++ pad2 dt.month ++ pad2 dt.day
    ++ pad2 dt.hour ++ pad2 dt.minute ++ pad2 dt.second

/-- Embeds the nested helper `format_ofx_datetime` (`alipay_to_ofx.py`
lines 188-199): empty or whitespace-only input returns the empty string;
any other input is parsed with `strptime` — whose `ValueError` on a
mismatch propagates, modelled as `Except.error` — and re-emitted as
`%Y%m%d%H%M%S` followed by the literal suffix `.000[+8:CST]`. -/
def format_ofx_datetime (dt_str : String) : Except PyError String :=
  if dt_str.data.isEmpty || (pyStrip dt_str.data).isEmpty then Except.ok ""
  else
    match strptimeYmdHms dt_str.data with
    | none => Except.error PyError.valueError
    | some dt => Except.ok (⟨strftimeDigits dt⟩ ++ ".000[+8:CST]")

/-- Statement metadata collected by `parse_alipay_file`.  The Python
dict starts with the six string fields set to `""`; the `共` branch may
add `total_records` (its absence is modelled as `none`). -/
structure Metadata where
  account : String := ""
  start_date : String := ""
  end_date : String := ""
  export_time : String := ""
  total_in : String := ""
  total_out : String := ""
  total_records : Option String := none
deriving DecidableEq

/-- Python truthiness of the `target_lang` argument: `None` and the
empty string are falsy. -/
def strTruthy : Option String → Bool
  | none => false
  | some s => !s.data.isEmpty

/-- Python `s.replace("-", "")`: remove every dash. -/
def removeDashes (s : String) : String :=
  ⟨s.data.filter (fun c => !(c == '-'))⟩

def stmttrnOpenLine : String := "          <STMTTRN>\n"

def stmttrnCloseLine : String := "          </STMTTRN>\n"

/-- The TRNTYPE line of line 253: CREDIT when the direction field equals
the income marker, DEBIT otherwise. -/
def trntypeLine (t : TransactionRecord) : String :=
  "            <TRNTYPE>"
    ++ (if t.income_or_expense = "收入" then "CREDIT" else "DEBIT")
    ++ "</TRNTYPE>\n"

def dtpostedLine (dtp : String) : String :=
  "            <DTPOSTED>" ++ dtp ++ "</DTPOSTED>\n"

def trnamtLine (t : TransactionRecord) : String :=
  "            <TRNAMT>" ++ t.amount_cny ++ "</TRNAMT>\n"

def fitidLine (t : TransactionRecord) : String :=
  "            <FITID>" ++ t.transaction_id ++ "</FITID>\n"

def nameLine (v : String) : String :=
  "            <NAME>" ++ v ++ "</NAME>\n"

def memoLine (v : String) : String :=
  "            <MEMO>" ++ v ++ "</MEMO>\n"

def dtserverLine (dts : String) : String :=
  "      <DTSERVER>" ++ dts ++ "</DTSERVER>\n"

def acctidLine (acct : String) : String :=
  "          <ACCTID>" ++ acct ++ "</ACCTID>\n"

def dtstartLine (sd : String) : String :=
  "          <DTSTART>" ++ (removeDashes sd ++ "000000.000[+8:CST]")
    ++ "</DTSTART>\n"

def dtendLine (ed : String) : String :=
  "          <DTEND>" ++ (removeDashes ed ++ "000000.000[+8:CST]")
    ++ "</DTEND>\n"

def balamtLine (v : String) : String :=
  "          <BALAMT>" ++ v ++ "</BALAMT>\n"

def dtasofLine (dts : String) : String :=
  "          <DTASOF>" ++ dts ++ "</DTASOF>\n"

/-- The fixed writes of `generate_ofx` before the DTSERVER computation
(lines 202-217). -/
def headerA : List String :=
  ["OFXHEADER:100\n", "DATA:OFXSGML\n", "VERSION:102\n", "SECURITY:NONE\n",
    "ENCODING:UTF-8\n", "CHARSET:NONE\n", "COMPRESSION:NONE\n",
    "OLDFILEUID:NONE\n", "NEWFILEUID:NONE\n", "<OFX>\n",
    "  <SIGNONMSGSRSV1>\n", "    <SONRS>\n", "      <STATUS>\n",
    "        <CODE>0</CODE>\n", "        <SEVERITY>INFO</SEVERITY>\n",
    "      </STATUS>\n"]

/-- The fixed writes between the DTSERVER line and the ACCTID line
(lines 226-243). -/
def headerMid1 : List String :=
  ["      <LANGUAGE>ENG</LANGUAGE>\n", "      <FI>\n",
    "        <ORG>ALIPAY</ORG>\n", "        <FID>NOFID</FID>\n",
    "      </FI>\n", "    </SONRS>\n", "  </SIGNONMSGSRSV1>\n",
    "  <BANKMSGSRSV1>\n", "    <STMTTRNRS>\n", "      <TRNUID>1</TRNUID>\n",
    "      <STATUS>\n", "        <CODE>0</CODE>\n",
    "        <SEVERITY>INFO</SEVERITY>\n", "      </STATUS>\n",
    "      <STMTRS>\n", "        <CURDEF>CNY</CURDEF>\n",
    "        <BANKACCTFROM>\n", "          <BANKID>ALIPAY</BANKID>\n"]

/-- The fixed writes between the ACCTID line and the DTSTART line
(lines 245-247). -/
def headerMid2 : List String :=
  ["          <ACCTTYPE>CHECKING</ACCTTYPE>\n",
    "        </BANKACCTFROM>\n", "        <BANKTRANLIST>\n"]

/-- Writes from the DTSERVER line through the DTEND line
(lines 225-249). -/
def headerTail (dts : String) (md : Metadata) : List String :=
  dtserverLine dts :: headerMid1
    ++ acctidLine md.account :: headerMid2
    ++ [dtstartLine md.start_date, dtendLine md.end_date]

def footerOpen : List String :=
  ["        </BANKTRANLIST>\n", "        <LEDGERBAL>\n"]

def footerMid : List String :=
  ["        </LEDGERBAL>\n", "        <AVAILBAL>\n"]

def footerClose : List String :=
  ["        </AVAILBAL>\n", "      </STMTRS>\n", "    </STMTTRNRS>\n",
    "  </BANKMSGSRSV1>\n", "</OFX>\n"]

/-- Writes after the transaction loop (lines 270-282): the closing
balances are filled from the metadata's total-in/total-out fields. -/
def footerLines (dts : String) (md : Metadata) : List String :=
  footerOpen ++ [balamtLine md.total_in, dtasofLine dts] ++ footerMid
    ++ [balamtLine md.total_out, dtasofLine dts] ++ footerClose

/-- The posted-date fallback chain of lines 256-261: Python `or`
evaluates each `format_ofx_datetime` call in turn, so a `ValueError`
from any attempted field propagates; the first non-empty result wins,
with the epoch constant as final default. -/
def dt_posted (t : TransactionRecord) : Except PyError String := do
  let a ← format_ofx_datetime t.payment_time
  if !a.data.isEmpty then return a
  else
    let b ← format_ofx_datetime t.transaction_create_time
    if !b.data.isEmpty then return b
    else
      let c ← format_ofx_datetime t.last_modified_time
      if !c.data.isEmpty then return c
      else return "19700101000000.000[+0:GMT]"

/-- The DTSERVER value computation of lines 220-223. -/
def dt_server (md : Metadata) : Except PyError String :=
  if !md.export_time.data.isEmpty then format_ofx_datetime md.export_time
  else Except.ok "20240101000000.000[+8:CST]"

/-- The transaction-loop body of lines 251-268, producing the lines
written for one record and the updated translation cache.  When the
posted-date computation raises, the lines already written (the open tag
and the TRNTYPE line) stay in the file and the error propagates. -/
def emitBlock (f : String → String) (target_lang : Option String)
    (t : TransactionRecord) (tr : List (String × String)) :
    List String × Except PyError (List (String × String)) :=
  match dt_posted t with
  | Except.error e => ([stmttrnOpenLine, trntypeLine t], Except.error e)
  | Except.ok dtp =>
    let r1 :=
      if strTruthy target_lang then translate_field f tr t.counterparty
      else (t.counterparty, tr, 0)
    let r2 :=
      if strTruthy target_lang then translate_field f r1.2.1 t.item_name
      else (t.item_name, r1.2.1, 0)
    ([stmttrnOpenLine, trntypeLine t, dtpostedLine dtp, trnamtLine t,
      fitidLine t, nameLine r1.1, memoLine r2.1, stmttrnCloseLine],
      Except.ok r2.2.1)

/-- The transaction loop of lines 251-268 over the whole record list,
threading the translation cache. -/
def emitTransactions (f : String → String) (target_lang : Option String) :
    List TransactionRecord → List (String × String) →
      List String × Except PyError (List (String × String))
  | [], tr => ([], Except.ok tr)
  | t :: rest, tr =>
    match emitBlock f target_lang t tr with
    | (ls, Except.error e) => (ls, Except.error e)
    | (ls, Except.ok tr2) =>
      let (ls2, res) := emitTransactions f target_lang rest tr2
      (ls ++ ls2, res)

/-- Embeds `generate_ofx` (lines 177-282) as the sequence of strings
written to the output file, paired with the final translation cache on
success; on an exception (a `ValueError` from a date parse) the first
component is the partial output already written when the exception was
raised.  `f` abstracts the `translate_text` network call exactly as in
`translate_field`. -/
def generate_ofx (f : String → String)
    (transactions : List TransactionRecord) (md : Metadata)
    (translations : List (String × String)) (target_lang : Option String) :
    List String × Except PyError (List (String × String)) :=
  match dt_server md with
  | Except.error e => (headerA, Except.error e)
  | Except.ok dts =>
    match emitTransactions f target_lang transactions translations with
    | (ls, Except.error e) =>
      (headerA ++ headerTail dts md ++ ls, Except.error e)
    | (ls, Except.ok tr) =>
      (headerA ++ headerTail dts md ++ ls ++ footerLines dts md,
        Except.ok tr)

/-- Content of `line` strictly between the fixed prefix `pre` and the
fixed suffix `suf`, when the line has that shape; `none` otherwise.
Used to read tag contents back out of the emitted lines. -/
def extractTag (pre suf : List Char) (line : String) : Option String :=
  if pre.isPrefixOf line.data && suf.isSuffixOf line.data
      && decide (pre.length + suf.length ≤ line.data.length) then
    some ⟨(line.data.take (line.data.length - suf.length)).drop pre.length⟩
  else none

def fitidPre : List Char := "            <FITID>".data

def fitidSuf : List Char := "</FITID>\n".data

def trnamtPre : List Char := "            <TRNAMT>".data

def trnamtSuf : List Char := "</TRNAMT>\n".data

def balamtPre : List Char := "          <BALAMT>".data

def balamtSuf : List Char := "</BALAMT>\n".data

/-- The FITID contents of the emitted lines, in order. -/
def extractFITIDs (out : List String) : List String :=
  out.filterMap (extractTag fitidPre fitidSuf)

/-- The TRNAMT contents of the emitted lines, in order. -/
def extractTRNAMTs (out : List String) : List String :=
  out.filterMap (extractTag trnamtPre trnamtSuf)

/-- The BALAMT contents of the emitted lines, in order. -/
def extractBALAMTs (out : List String) : List String :=
  out.filterMap (extractTag balamtPre balamtSuf)

/-- Number of STMTTRN opening tags among the emitted lines. -/
def countSTMTTRN (out : List String) : Nat :=
  out.countP (fun l => l == stmttrnOpenLine)

/-- Sample income record used in concrete witnesses. -/
def sampleIncomeTx : TransactionRecord :=
  { transaction_id := "20240001", payment_time := "2024-01-15 13:45:00",
    amount_cny := "100.00", income_or_expense := "收入" }

/-- Sample expense record used in concrete witnesses. -/
def sampleExpenseTx : TransactionRecord :=
  { transaction_id := "20240002", payment_time := "2024-01-16 10:00:00",
    amount_cny := "-25.50", income_or_expense := "支出" }

/-- Sample record whose date fields do not parse. -/
def sampleBadDateTx : TransactionRecord :=
  { transaction_id := "X1", payment_time := "not a date" }

/-- Sample metadata used in concrete witnesses. -/
def sampleMd : Metadata :=
  { account := "user@example.com", start_date := "2024-01-01",
    end_date := "2024-01-31", export_time := "", total_in := "123.45",
    total_out := "67.89" }

/-- The fixed encoding list of line 37 of `alipay_to_ofx.py`. -/
def encoding_list : List String := ["utf-8", "gbk", "gb2312"]

/-- Embeds the for/else decode loop of lines 38-46 of
`parse_alipay_file`.  `decode e` abstracts opening and reading the
whole input file with text encoding `e`; `none` models a
`UnicodeDecodeError` raised while reading.  On success the decoded
lines are returned together with the encoding used (model-level
instrumentation so claims about which encoding was chosen can be
stated).  When every encoding fails, the `else` branch executes
`raise UnicodeDecodeError(f"...")`; `UnicodeDecodeError` requires five
constructor arguments (encoding, object, start, end, reason), so this
one-argument construction itself raises `TypeError`, which is what the
model returns. -/
def tryEncodings (decode : String → Option (List String)) :
    List String → Except PyError (String × List String)
  | [] => Except.error PyError.typeError
  | e :: rest =>
    match decode e with
    | some ls => Except.ok (e, ls)
    | none => tryEncodings decode rest

/-- Characters of `l` before the first occurrence of `sep`, which is
`l.split(sep)[0]` for a non-empty separator (this indexing never
raises). -/
def takeBeforeSep (sep : List Char) : List Char → List Char
  | [] => []
  | c :: r => if sep.isPrefixOf (c :: r) then [] else c :: takeBeforeSep sep r

/-- The metadata branch chain of lines 50-67 of `parse_alipay_file`,
updating the metadata dict from one line.  The embedded string methods
follow Python semantics: `split(':')` keeps empty pieces, `split()`
drops them, list indexing raises `IndexError`, slicing `[1:]` is
total. -/
def metaStep (line : String) (md : Metadata) : Except PyError Metadata :=
  if pyStartsWith line.data "账号".data then do
    let v ← pyIndex (pySplitChar ':' line.data) 1
    Except.ok { md with account := ⟨pyStrip v⟩ }
  else if pyStartsWith line.data "起始日期".data then do
    let dates := pySplitWs line.data
    let d0 ← pyIndex dates 0
    let p ← pyIndex (pySplitChar ':' d0) 1
    let d2 ← pyIndex dates 2
    let q ← pyIndex (pySplitChar '[' d2) 1
    let e0 ← pyIndex (pySplitWs (pyStrip q)) 0
    Except.ok { md with
      start_date := ⟨pyDrop1 (pyStrip p)⟩
      end_date := ⟨e0⟩ }
  else if pyStartsWith line.data "共".data then do
    let summary := pyStrip line.data
    let tr0 : Option String :=
      some ⟨pyDrop1 (takeBeforeSep "笔记录".data summary)⟩
    let md1 := { md with total_records := tr0 }
    let categories := pySplitChar ' ' summary
    categories.foldlM (fun m cat =>
      if pyStartsWith cat "已收入:".data then do
        let p ← pyIndex (pySplitChar ':' cat) 1
        let v ← pyIndex (pySplitChar ',' p) 1
        Except.ok { m with total_in := ⟨v⟩ }
      else if pyStartsWith cat "已支出:".data then do
        let p ← pyIndex (pySplitChar ':' cat) 1
        let v ← pyIndex (pySplitChar ',' p) 1
        Except.ok { m with total_out := ⟨v⟩ }
      else Except.ok m) md1
  else if pyStartsWith (pyStrip line.data) "导出时间".data then do
    let p ← pyIndex (pySplitChar ':' line.data) 1
    let q ← pyIndex (pySplitWs (pyStrip p)) 0
    Except.ok { md with export_time := ⟨pyDrop1 q⟩ }
  else Except.ok md

/-- The line loop of lines 49-71 of `parse_alipay_file`: scan the lines
accumulating metadata; the first line starting with `交易号` ends the
scan, after which the remaining lines go through the csv tokenizer
(`csvReader` abstracts `csv.reader`) and the row loop.  When no line
starts with `交易号`, the loop completes and line 73 reads the
never-assigned `transaction_lines`, raising `UnboundLocalError`. -/
def metaLoop (csvReader : List String → List (List String))
    (allLines : List String) :
    List String → Nat → Metadata →
      Except PyError (List TransactionRecord × Metadata)
  | [], _, _ => Except.error PyError.unboundLocalError
  | line :: rest, i, md =>
    match metaStep line md with
    | Except.error e => Except.error e
    | Except.ok md2 =>
      if pyStartsWith line.data "交易号".data then
        Except.ok (parseTransactions (csvReader (allLines.drop (i + 1))),
          md2)
      else metaLoop csvReader allLines rest (i + 1) md2

/-- Embeds `parse_alipay_file` after decoding (lines 26-96): metadata
scan, transaction-section location via the `交易号` header line, and row
parsing.  The metadata dict starts with its six string fields empty. -/
def parse_alipay_file (csvReader : List String → List (List String))
    (lines : List String) :
    Except PyError (List TransactionRecord × Metadata) :=
  metaLoop csvReader lines lines 0 {}

/-- Lines of a text file as Python's file iteration yields them: pieces
between newlines, where a trailing newline produces no final empty line
(the terminators themselves are dropped here; the loader's `strip()`
would remove them anyway). -/
def dropTrailingEmpty : List (List Char) → List (List Char)
  | [] => []
  | [x] => if x.isEmpty then [] else [x]
  | x :: y :: r => x :: dropTrailingEmpty (y :: r)

/-- Universal-newline translation performed by Python when a file is
opened in text mode with the default `newline=None`: each `\r\n` pair
and each lone `\r` is read as `\n`. -/
def translateNewlines : List Char → List Char
  | [] => []
  | [c] => if c = '\r' then ['\n'] else [c]
  | c :: c2 :: r =>
    if c = '\r' then
      if c2 = '\n' then '\n' :: translateNewlines r
      else '\n' :: translateNewlines (c2 :: r)
    else c :: translateNewlines (c2 :: r)

/-- File contents split into Python iteration lines: universal-newline
translation first, then splitting at `\n`. -/
def pyLines (contents : List Char) : List (List Char) :=
  dropTrailingEmpty (pySplitChar '\n' (translateNewlines contents))

/-- One line of the cache file:
`original, translated = line.strip().split('|')` raises `ValueError`
unless the split yields exactly two parts. -/
def parseCacheLine (line : List Char) : Except PyError (String × String) :=
  match pySplitChar '|' (pyStrip line) with
  | [o, t] => Except.ok (⟨o⟩, ⟨t⟩)
  | _ => Except.error PyError.valueError

/-- The line loop of `load_translations_map`, assigning
`translations[original] = translated` in file order. -/
def loadLoop : List (List Char) → List (String × String) →
    Except PyError (List (String × String))
  | [], m => Except.ok m
  | line :: rest, m =>
    match parseCacheLine line with
    | Except.error e => Except.error e
    | Except.ok p => loadLoop rest (dictAssign m p.1 p.2)

/-- Embeds `load_translations_map` (`alipay_to_ofx.py` lines 132-147)
given the cache file's contents.  (A missing file yields an empty dict
before this point; none of the claims exercise that branch.) -/
def load_translations_map (contents : List Char) :
    Except PyError (List (String × String)) :=
  loadLoop (pyLines contents) []

/-- Embeds `save_translations_map` (lines 149-158): write one
`original|translated` line per entry, in dict order. -/
def save_translations_map (translations : List (String × String)) :
    List Char :=
  (translations.map (fun p => p.1.data ++ '|' :: p.2.data ++ ['\n'])).join

theorem parseTransactions_eq_filter (rows : List (List String)) :
    parseTransactions rows
      = (rows.filter (fun r => decide (17 ≤ r.length))).map rowToRecord := by
  induction rows with
  | nil => rfl
  | cons row rest ih =>
    by_cases h : row.length < 17
    · have hd : decide (17 ≤ row.length) = false := by
        simp only [decide_eq_false_iff_not]
        omega
      rw [parseTransactions, if_pos h, List.filter_cons, hd, ih]
      simp
    · have hd : decide (17 ≤ row.length) = true := by
        simp only [decide_eq_true_eq]
        omega
      rw [parseTransactions, if_neg h, List.filter_cons, hd, ih]
      simp

/-- C1 (amended): in the transaction section, `parse_alipay_file`
accepts a delimited row (appending a `TransactionRecord` built from its
first sixteen stripped fields) if and only if the row has at least 17
delimited fields; every row with fewer fields is silently skipped, so
the returned list's length equals the number of rows with at least 17
fields. -/
theorem C1_row_acceptance_threshold (rows : List (List String)) :
    parseTransactions rows
      = (rows.filter (fun r => decide (17 ≤ r.length))).map rowToRecord
    ∧ (parseTransactions rows).length
      = rows.countP (fun r => decide (17 ≤ r.length)) := by
  refine ⟨parseTransactions_eq_filter rows, ?_⟩
  rw [parseTransactions_eq_filter rows, List.length_map,
    List.countP_eq_length_filter]

/-- C1 counterexample: a row with exactly 16 delimited fields — which the
claim says must be accepted — is dropped, so the record count (0) differs
from the number of rows with at least 16 fields (1). -/
theorem C1_counterexample_sixteen_field_row :
    (parseTransactions [List.replicate 16 "x"]).length = 0
    ∧ ([List.replicate 16 "x"].countP
        (fun r : List String => decide (16 ≤ r.length))) = 1 := by
  exact ⟨rfl, rfl⟩

theorem lookup_append (m₁ m₂ : List (String × String)) (k : String) :
    (m₁ ++ m₂).lookup k
      = ((m₁.lookup k).orElse (fun _ => m₂.lookup k)) := by
  induction m₁ with
  | nil => simp [List.lookup, Option.orElse]
  | cons a t ih =>
    obtain ⟨k', v'⟩ := a
    cases h : k == k' with
    | true => simp [List.lookup, h, Option.orElse]
    | false => simp [List.lookup, h, Option.orElse, ih]

theorem lookup_singleton_self (k v : String) :
    ([(k, v)] : List (String × String)).lookup k = some v := by
  simp [List.lookup]

theorem lookup_singleton_ne (k k' v : String) (h : k ≠ k') :
    ([(k', v)] : List (String × String)).lookup k = none := by
  have hb : (k == k') = false := beq_eq_false_iff_ne.mpr h
  simp [List.lookup, hb]

theorem dictAssign_lookup_self (m : List (String × String)) (k v : String)
    (h : m.lookup k = none) : (dictAssign m k v).lookup k = some v := by
  rw [dictAssign, if_neg (by simp [h]), lookup_append, h]
  simp [Option.orElse, lookup_singleton_self]

theorem dictAssign_lookup_ne (m : List (String × String)) (k v k' : String)
    (hk : m.lookup k = none) (h : k' ≠ k) :
    (dictAssign m k v).lookup k' = m.lookup k' := by
  rw [dictAssign, if_neg (by simp [hk]), lookup_append,
    lookup_singleton_ne k' k v h]
  cases hm : m.lookup k' <;> simp [Option.orElse]

/-- C4: on a cache miss `translate_field` applies the underlying
translate function exactly once and on a hit zero times; calling it a
second time with the same text and the resulting cache applies it zero
times and returns the identical string, equal to the cached translation
followed by the original text in parentheses. -/
theorem C4_translate_field_cache_behavior (f : String → String)
    (m : List (String × String)) (text : String) :
    (translate_field f m text).2.2
      = (if (m.lookup text).isSome then 0 else 1)
    ∧ (translate_field f m text).2.1.lookup text
      = some ((m.lookup text).getD (f text))
    ∧ (translate_field f m text).1
      = ((m.lookup text).getD (f text)) ++ " (" ++ text ++ ")"
    ∧ (translate_field f (translate_field f m text).2.1 text).2.2 = 0
    ∧ (translate_field f (translate_field f m text).2.1 text).1
      = (translate_field f m text).1 := by
  cases hm : m.lookup text with
  | some v =>
    have h1 : translate_field f m text
        = (v ++ " (" ++ text ++ ")", m, 0) := by
      rw [translate_field]
      simp [hm]
    rw [h1]
    simp [hm, h1]
  | none =>
    have hpost : (dictAssign m text (f text)).lookup text = some (f text) :=
      dictAssign_lookup_self m text (f text) hm
    have h1 : translate_field f m text
        = (f text ++ " (" ++ text ++ ")", dictAssign m text (f text), 1) := by
      rw [translate_field]
      simp [hm, hpost]
    have h2 : translate_field f (dictAssign m text (f text)) text
        = (f text ++ " (" ++ text ++ ")", dictAssign m text (f text), 0) := by
      rw [translate_field]
      simp [hpost]
    rw [h1, h2]
    simp [hm, hpost]

/-- C10: `translate_field` preserves every cache entry whose key differs
from the argument text, never overwrites a pre-existing entry for the
argument text, and adds at most one new entry. -/
theorem C10_translate_field_frame (f : String → String)
    (m : List (String × String)) (text : String) :
    (∀ k, k ≠ text → (translate_field f m text).2.1.lookup k = m.lookup k)
    ∧ (∀ v, m.lookup text = some v →
        (translate_field f m text).2.1.lookup text = some v)
    ∧ (translate_field f m text).2.1.length ≤ m.length + 1
    ∧ m.length ≤ (translate_field f m text).2.1.length := by
  cases hm : m.lookup text with
  | some v =>
    have h1 : (translate_field f m text).2.1 = m := by
      rw [translate_field]
      simp [hm]
    rw [h1]
    exact ⟨fun k _ => rfl, fun w hw => hm.trans hw, by omega, le_refl _⟩
  | none =>
    have h1 : (translate_field f m text).2.1 = m ++ [(text, f text)] := by
      rw [translate_field]
      simp [hm, dictAssign]
    rw [h1]
    refine ⟨fun k hk => ?_, fun w hw => ?_, ?_, ?_⟩
    · rw [lookup_append, lookup_singleton_ne k text (f text) hk]
      cases hmk : m.lookup k <;> simp [Option.orElse]
    · exact Option.noConfusion hw
    · simp
    · simp

/-- C10 witness: concrete frame facts obtained from the theorem at the
cache containing just the pair (a, b). -/
theorem C10_witness :
    (translate_field (fun t => t) [("a", "b")] "x").2.1.lookup "a" = some "b"
    ∧ (translate_field (fun t => t) [("a", "b")] "a").2.1.lookup "a"
      = some "b" := by
  have h1 := C10_translate_field_frame (fun t => t) [("a", "b")] "x"
  have h2 := C10_translate_field_frame (fun t => t) [("a", "b")] "a"
  constructor
  · rw [h1.1 "a" (by decide)]
    rfl
  · exact h2.2.1 "b" (by rfl)

theorem parseYear4_lt (l r : List Char) (n : Nat)
    (h : parseYear4 l = some (n, r)) : n < 10000 := by
  rcases l with _ | ⟨c1, _ | ⟨c2, _ | ⟨c3, _ | ⟨c4, t⟩⟩⟩⟩ <;>
    simp [parseYear4, isDig, dval] at h
  omega

theorem parseMonth_lt (l r : List Char) (n : Nat)
    (h : parseMonth l = some (n, r)) : n < 100 := by
  rcases l with _ | ⟨c1, _ | ⟨c2, t⟩⟩ <;>
    simp [parseMonth, isDig, dval] at h
  · omega
  · split at h
    · simp at h
      omega
    · split at h
      · simp at h
        omega
      · split at h
        · simp at h
          omega
        · simp at h

theorem parseDay_lt (l r : List Char) (n : Nat)
    (h : parseDay l = some (n, r)) : n < 100 := by
  rcases l with _ | ⟨c1, _ | ⟨c2, t⟩⟩ <;>
    simp [parseDay, isDig, dval] at h
  · omega
  · split at h
    · simp at h
      omega
    · split at h
      · simp at h
        omega
      · split at h
        · simp at h
          omega
        · split at h
          · simp at h
            omega
          · simp at h

theorem parseHour_lt (l r : List Char) (n : Nat)
    (h : parseHour l = some (n, r)) : n < 100 := by
  rcases l with _ | ⟨c1, _ | ⟨c2, t⟩⟩ <;>
    simp [parseHour, isDig, dval] at h
  · omega
  · split at h
    · simp at h
      omega
    · split at h
      · simp at h
        omega
      · split at h
        · simp at h
          omega
        · simp at h

theorem parseMinSec_lt (l r : List Char) (n : Nat)
    (h : parseMinSec l = some (n, r)) : n < 100 := by
  rcases l with _ | ⟨c1, _ | ⟨c2, t⟩⟩ <;>
    simp [parseMinSec, isDig, dval] at h
  · omega
  · split at h
    · simp at h
      omega
    · split at h
      · simp at h
        omega
      · simp at h

theorem strptimeYmdHms_bounds (l : List Char) (dt : PyDatetime)
    (h : strptimeYmdHms l = some dt) :
    dt.year < 10000 ∧ dt.month < 100 ∧ dt.day < 100
    ∧ dt.hour < 100 ∧ dt.minute < 100 ∧ dt.second < 100 := by
  rw [strptimeYmdHms] at h
  simp only [bind, Option.bind_eq_some] at h
  obtain ⟨⟨y, r1⟩, hy, ⟨r2, _, ⟨⟨mo, r3⟩, hmo, ⟨r4, _,
    ⟨⟨d, r5⟩, hd, ⟨r6, _, ⟨⟨hh, r7⟩, hhour, ⟨r8, _,
    ⟨⟨mi, r9⟩, hmi, ⟨r10, _, ⟨⟨ss, r11⟩, hss, hfin⟩⟩⟩⟩⟩⟩⟩⟩⟩⟩⟩ := h
  have h1 := parseYear4_lt l r1 y hy
  have h2 := parseMonth_lt r2 r3 mo hmo
  have h3 := parseDay_lt r4 r5 d hd
  have h4 := parseHour_lt r6 r7 hh hhour
  have h5 := parseMinSec_lt r8 r9 mi hmi
  have h6 := parseMinSec_lt r10 r11 ss hss
  split at hfin
  · obtain rfl := Option.some.inj hfin
    exact ⟨h1, h2, h3, h4, h5, h6⟩
  · exact absurd hfin (by simp)

theorem digitChar_isDig (d : Nat) (h : d < 10) : isDig (digitChar d) = true := by
  interval_cases d <;> decide

theorem pad2_all_isDig (n : Nat) : (pad2 n).all isDig = true := by
  have a := digitChar_isDig (n / 10 % 10) (Nat.mod_lt _ (by omega))
  have b := digitChar_isDig (n % 10) (Nat.mod_lt _ (by omega))
  simp [pad2, a, b]

theorem pad4_all_isDig (n : Nat) : (pad4 n).all isDig = true := by
  have a := digitChar_isDig (n / 1000 % 10) (Nat.mod_lt _ (by omega))
  have b := digitChar_isDig (n / 100 % 10) (Nat.mod_lt _ (by omega))
  have c := digitChar_isDig (n / 10 % 10) (Nat.mod_lt _ (by omega))
  have d := digitChar_isDig (n % 10) (Nat.mod_lt _ (by omega))
  simp [pad4, a, b, c, d]

theorem strftimeDigits_length (dt : PyDatetime) :
    (strftimeDigits dt).length = 14 := by
  simp [strftimeDigits, pad4, pad2]

theorem strftimeDigits_all_isDig (dt : PyDatetime) :
    (strftimeDigits dt).all isDig = true := by
  simp only [strftimeDigits, List.all_append]
  simp [pad2_all_isDig, pad4_all_isDig]

/-- C5 (amended): `format_ofx_datetime` maps `2024-01-15 13:45:00` to
`20240115134500.000[+8:CST]` and the empty string to the empty string;
for every non-whitespace input on which the `strptime` parse succeeds,
the emitted value is fourteen decimal digits (`YYYYMMDDHHMMSS`) followed
by `.000[+8:CST]`.  (Non-empty unparseable input instead raises
`ValueError` — see the counterexample theorem.) -/
theorem C5_format_ofx_datetime_shape :
    format_ofx_datetime "2024-01-15 13:45:00"
      = Except.ok "20240115134500.000[+8:CST]"
    ∧ format_ofx_datetime "" = Except.ok ""
    ∧ ∀ s r, format_ofx_datetime s = Except.ok r → pyStrip s.data ≠ [] →
        ∃ core : List Char, r = ⟨core⟩ ++ ".000[+8:CST]"
          ∧ core.length = 14 ∧ core.all isDig = true := by
  refine ⟨by decide, rfl, fun s r h hs => ?_⟩
  rw [format_ofx_datetime] at h
  have h1 : (pyStrip s.data).isEmpty = false := by
    cases hps : pyStrip s.data with
    | nil => exact absurd hps hs
    | cons a t => rfl
  have h2 : s.data.isEmpty = false := by
    cases hd : s.data with
    | nil =>
      refine absurd ?_ hs
      rw [hd]
      rfl
    | cons a t => rfl
  rw [if_neg (by simp [h1, h2])] at h
  cases hps : strptimeYmdHms s.data with
  | none =>
    rw [hps] at h
    exact absurd h (by simp)
  | some dt =>
    rw [hps] at h
    refine ⟨strftimeDigits dt, ?_, strftimeDigits_length dt,
      strftimeDigits_all_isDig dt⟩
    exact (Except.ok.inj h).symm

/-- C5 witness: the general-shape clause of the theorem evaluated at the
concrete parseable input `1999-12-31 23:59:59`. -/
theorem C5_witness :
    ∃ core : List Char,
      ("19991231235959.000[+8:CST]" : String) = ⟨core⟩ ++ ".000[+8:CST]"
      ∧ core.length = 14 ∧ core.all isDig = true :=
  C5_format_ofx_datetime_shape.2.2 "1999-12-31 23:59:59"
    "19991231235959.000[+8:CST]" (by decide) (by decide)

/-- C5 counterexample: the claim asserts the `YYYYMMDDHHMMSS` shape for
every non-empty input, but the non-empty input `x` makes
`format_ofx_datetime` raise `ValueError` (from `datetime.strptime`)
instead of emitting anything. -/
theorem C5_counterexample_unparseable_input :
    format_ofx_datetime "x" = Except.error PyError.valueError := by
  decide

theorem get?_append_of_lt (l₁ l₂ : List Char) (i : Nat) (h : i < l₁.length) :
    (l₁ ++ l₂).get? i = l₁.get? i := List.get?_append h

theorem extractTag_of_shape (pre suf : List Char) (s : String) (x : List Char)
    (h : s.data = pre ++ x ++ suf) : extractTag pre suf s = some ⟨x⟩ := by
  have hp : pre.isPrefixOf s.data = true := by
    rw [ List.isPrefixOf_iff_prefix, h]
    exact ⟨x ++ suf, by simp⟩
  have hs : suf.isSuffixOf s.data = true := by
    rw [ List.isSuffixOf_iff_suffix, h]
    exact ⟨pre ++ x, rfl⟩
  have hdl : s.data.length = pre.length + x.length + suf.length := by
    rw [h]
    simp only [List.length_append]
  have hl : pre.length + suf.length ≤ s.data.length := by omega
  rw [extractTag, if_pos (by rw [hp, hs, decide_eq_true hl]; rfl)]
  have hlen : s.data.length - suf.length = (pre ++ x).length := by
    simp only [List.length_append]
    omega
  rw [hlen, h, show pre ++ x ++ suf = (pre ++ x) ++ suf from rfl,
    List.take_left, List.drop_left]

theorem extractTag_none_of_mismatch (pre suf c r : List Char) (s : String)
    (i : Nat) (h : s.data = c ++ r) (hip : i < pre.length)
    (hic : i < c.length) (hne : c.get? i ≠ pre.get? i) :
    extractTag pre suf s = none := by
  have hnp : ¬ (pre <+: s.data) := by
    intro hpre
    obtain ⟨t, ht⟩ := hpre
    apply hne
    calc c.get? i = (c ++ r).get? i := (get?_append_of_lt c r i hic).symm
    _ = s.data.get? i := by rw [h]
    _ = (pre ++ t).get? i := by rw [← ht]
    _ = pre.get? i := get?_append_of_lt pre t i hip
  have hpb : pre.isPrefixOf s.data = false := by
    cases hq : pre.isPrefixOf s.data
    · rfl
    · exact absurd ( List.isPrefixOf_iff_prefix.mp hq) hnp
  rw [extractTag, hpb]
  simp

theorem string_ne_of_mismatch (c r : List Char) (s t : String) (i : Nat)
    (h : s.data = c ++ r) (hic : i < c.length)
    (hne : c.get? i ≠ t.data.get? i) : (s == t) = false := by
  apply beq_eq_false_iff_ne.mpr
  intro he
  apply hne
  calc c.get? i = (c ++ r).get? i := (get?_append_of_lt c r i hic).symm
  _ = s.data.get? i := by rw [h]
  _ = t.data.get? i := by rw [he]

@[simp] theorem exF_dtserver (v : String) :
    extractTag fitidPre fitidSuf (dtserverLine v) = none := by
  refine extractTag_none_of_mismatch _ _ "      <DTSERVER>".data
    (v.data ++ "</DTSERVER>\n".data) _ 6 ?_ (by decide) (by decide) (by decide)
  simp [dtserverLine, String.data_append, List.append_assoc]

@[simp] theorem exF_acctid (v : String) :
    extractTag fitidPre fitidSuf (acctidLine v) = none := by
  refine extractTag_none_of_mismatch _ _ "          <ACCTID>".data
    (v.data ++ "</ACCTID>\n".data) _ 10 ?_ (by decide) (by decide) (by decide)
  simp [acctidLine, String.data_append, List.append_assoc]

@[simp] theorem exF_dtstart (v : String) :
    extractTag fitidPre fitidSuf (dtstartLine v) = none := by
  refine extractTag_none_of_mismatch _ _ "          <DTSTART>".data
    (((removeDashes v).data ++ "000000.000[+8:CST]".data)
      ++ "</DTSTART>\n".data) _ 10 ?_ (by decide) (by decide) (by decide)
  simp [dtstartLine, String.data_append, List.append_assoc]

@[simp] theorem exF_dtend (v : String) :
    extractTag fitidPre fitidSuf (dtendLine v) = none := by
  refine extractTag_none_of_mismatch _ _ "          <DTEND>".data
    (((removeDashes v).data ++ "000000.000[+8:CST]".data)
      ++ "</DTEND>\n".data) _ 10 ?_ (by decide) (by decide) (by decide)
  simp [dtendLine, String.data_append, List.append_assoc]

@[simp] theorem exF_balamt (v : String) :
    extractTag fitidPre fitidSuf (balamtLine v) = none := by
  refine extractTag_none_of_mismatch _ _ "          <BALAMT>".data
    (v.data ++ "</BALAMT>\n".data) _ 10 ?_ (by decide) (by decide) (by decide)
  simp [balamtLine, String.data_append, List.append_assoc]

@[simp] theorem exF_dtasof (v : String) :
    extractTag fitidPre fitidSuf (dtasofLine v) = none := by
  refine extractTag_none_of_mismatch _ _ "          <DTASOF>".data
    (v.data ++ "</DTASOF>\n".data) _ 10 ?_ (by decide) (by decide) (by decide)
  simp [dtasofLine, String.data_append, List.append_assoc]

@[simp] theorem exF_trntype (t : TransactionRecord) :
    extractTag fitidPre fitidSuf (trntypeLine t) = none := by
  refine extractTag_none_of_mismatch _ _ "            <TRNTYPE>".data
    ((if t.income_or_expense = "收入" then "CREDIT" else "DEBIT").data
      ++ "</TRNTYPE>\n".data) _ 13 ?_ (by decide) (by decide) (by decide)
  simp [trntypeLine, String.data_append, List.append_assoc]

@[simp] theorem exF_dtposted (v : String) :
    extractTag fitidPre fitidSuf (dtpostedLine v) = none := by
  refine extractTag_none_of_mismatch _ _ "            <DTPOSTED>".data
    (v.data ++ "</DTPOSTED>\n".data) _ 13 ?_ (by decide) (by decide)
    (by decide)
  simp [dtpostedLine, String.data_append, List.append_assoc]

@[simp] theorem exF_trnamt (t : TransactionRecord) :
    extractTag fitidPre fitidSuf (trnamtLine t) = none := by
  refine extractTag_none_of_mismatch _ _ "            <TRNAMT>".data
    (t.amount_cny.data ++ "</TRNAMT>\n".data) _ 13 ?_ (by decide) (by decide)
    (by decide)
  simp [trnamtLine, String.data_append, List.append_assoc]

@[simp] theorem exF_name (v : String) :
    extractTag fitidPre fitidSuf (nameLine v) = none := by
  refine extractTag_none_of_mismatch _ _ "            <NAME>".data
    (v.data ++ "</NAME>\n".data) _ 13 ?_ (by decide) (by decide) (by decide)
  simp [nameLine, String.data_append, List.append_assoc]

@[simp] theorem exF_memo (v : String) :
    extractTag fitidPre fitidSuf (memoLine v) = none := by
  refine extractTag_none_of_mismatch _ _ "            <MEMO>".data
    (v.data ++ "</MEMO>\n".data) _ 13 ?_ (by decide) (by decide) (by decide)
  simp [memoLine, String.data_append, List.append_assoc]

@[simp] theorem exF_open :
    extractTag fitidPre fitidSuf stmttrnOpenLine = none := by decide

@[simp] theorem exF_close :
    extractTag fitidPre fitidSuf stmttrnCloseLine = none := by decide

@[simp] theorem exF_fitid_pos (t : TransactionRecord) :
    extractTag fitidPre fitidSuf (fitidLine t) = some t.transaction_id :=
  extractTag_of_shape fitidPre fitidSuf (fitidLine t) t.transaction_id.data
    (by simp [fitidLine, fitidPre, fitidSuf, String.data_append,
      List.append_assoc])

@[simp] theorem exA_dtserver (v : String) :
    extractTag trnamtPre trnamtSuf (dtserverLine v) = none := by
  refine extractTag_none_of_mismatch _ _ "      <DTSERVER>".data
    (v.data ++ "</DTSERVER>\n".data) _ 6 ?_ (by decide) (by decide) (by decide)
  simp [dtserverLine, String.data_append, List.append_assoc]

@[simp] theorem exA_acctid (v : String) :
    extractTag trnamtPre trnamtSuf (acctidLine v) = none := by
  refine extractTag_none_of_mismatch _ _ "          <ACCTID>".data
    (v.data ++ "</ACCTID>\n".data) _ 10 ?_ (by decide) (by decide) (by decide)
  simp [acctidLine, String.data_append, List.append_assoc]

@[simp] theorem exA_dtstart (v : String) :
    extractTag trnamtPre trnamtSuf (dtstartLine v) = none := by
  refine extractTag_none_of_mismatch _ _ "          <DTSTART>".data
    (((removeDashes v).data ++ "000000.000[+8:CST]".data)
      ++ "</DTSTART>\n".data) _ 10 ?_ (by decide) (by decide) (by decide)
  simp [dtstartLine, String.data_append, List.append_assoc]

@[simp] theorem exA_dtend (v : String) :
    extractTag trnamtPre trnamtSuf (dtendLine v) = none := by
  refine extractTag_none_of_mismatch _ _ "          <DTEND>".data
    (((removeDashes v).data ++ "000000.000[+8:CST]".data)
      ++ "</DTEND>\n".data) _ 10 ?_ (by decide) (by decide) (by decide)
  simp [dtendLine, String.data_append, List.append_assoc]

@[simp] theorem exA_balamt (v : String) :
    extractTag trnamtPre trnamtSuf (balamtLine v) = none := by
  refine extractTag_none_of_mismatch _ _ "          <BALAMT>".data
    (v.data ++ "</BALAMT>\n".data) _ 10 ?_ (by decide) (by decide) (by decide)
  simp [balamtLine, String.data_append, List.append_assoc]

@[simp] theorem exA_dtasof (v : String) :
    extractTag trnamtPre trnamtSuf (dtasofLine v) = none := by
  refine extractTag_none_of_mismatch _ _ "          <DTASOF>".data
    (v.data ++ "</DTASOF>\n".data) _ 10 ?_ (by decide) (by decide) (by decide)
  simp [dtasofLine, String.data_append, List.append_assoc]

@[simp] theorem exA_trntype (t : TransactionRecord) :
    extractTag trnamtPre trnamtSuf (trntypeLine t) = none := by
  refine extractTag_none_of_mismatch _ _ "            <TRNTYPE>".data
    ((if t.income_or_expense = "收入" then "CREDIT" else "DEBIT").data
      ++ "</TRNTYPE>\n".data) _ 16 ?_ (by decide) (by decide) (by decide)
  simp [trntypeLine, String.data_append, List.append_assoc]

@[simp] theorem exA_dtposted (v : String) :
    extractTag trnamtPre trnamtSuf (dtpostedLine v) = none := by
  refine extractTag_none_of_mismatch _ _ "            <DTPOSTED>".data
    (v.data ++ "</DTPOSTED>\n".data) _ 13 ?_ (by decide) (by decide)
    (by decide)
  simp [dtpostedLine, String.data_append, List.append_assoc]

@[simp] theorem exA_fitid (t : TransactionRecord) :
    extractTag trnamtPre trnamtSuf (fitidLine t) = none := by
  refine extractTag_none_of_mismatch _ _ "            <FITID>".data
    (t.transaction_id.data ++ "</FITID>\n".data) _ 13 ?_ (by decide)
    (by decide) (by decide)
  simp [fitidLine, String.data_append, List.append_assoc]

@[simp] theorem exA_name (v : String) :
    extractTag trnamtPre trnamtSuf (nameLine v) = none := by
  refine extractTag_none_of_mismatch _ _ "            <NAME>".data
    (v.data ++ "</NAME>\n".data) _ 13 ?_ (by decide) (by decide) (by decide)
  simp [nameLine, String.data_append, List.append_assoc]

@[simp] theorem exA_memo (v : String) :
    extractTag trnamtPre trnamtSuf (memoLine v) = none := by
  refine extractTag_none_of_mismatch _ _ "            <MEMO>".data
    (v.data ++ "</MEMO>\n".data) _ 13 ?_ (by decide) (by decide) (by decide)
  simp [memoLine, String.data_append, List.append_assoc]

@[simp] theorem exA_open :
    extractTag trnamtPre trnamtSuf stmttrnOpenLine = none := by decide

@[simp] theorem exA_close :
    extractTag trnamtPre trnamtSuf stmttrnCloseLine = none := by decide

@[simp] theorem exA_trnamt_pos (t : TransactionRecord) :
    extractTag trnamtPre trnamtSuf (trnamtLine t) = some t.amount_cny :=
  extractTag_of_shape trnamtPre trnamtSuf (trnamtLine t) t.amount_cny.data
    (by simp [trnamtLine, trnamtPre, trnamtSuf, String.data_append,
      List.append_assoc])

@[simp] theorem exB_dtserver (v : String) :
    extractTag balamtPre balamtSuf (dtserverLine v) = none := by
  refine extractTag_none_of_mismatch _ _ "      <DTSERVER>".data
    (v.data ++ "</DTSERVER>\n".data) _ 6 ?_ (by decide) (by decide) (by decide)
  simp [dtserverLine, String.data_append, List.append_assoc]

@[simp] theorem exB_acctid (v : String) :
    extractTag balamtPre balamtSuf (acctidLine v) = none := by
  refine extractTag_none_of_mismatch _ _ "          <ACCTID>".data
    (v.data ++ "</ACCTID>\n".data) _ 11 ?_ (by decide) (by decide) (by decide)
  simp [acctidLine, String.data_append, List.append_assoc]

@[simp] theorem exB_dtstart (v : String) :
    extractTag balamtPre balamtSuf (dtstartLine v) = none := by
  refine extractTag_none_of_mismatch _ _ "          <DTSTART>".data
    (((removeDashes v).data ++ "000000.000[+8:CST]".data)
      ++ "</DTSTART>\n".data) _ 11 ?_ (by decide) (by decide) (by decide)
  simp [dtstartLine, String.data_append, List.append_assoc]

@[simp] theorem exB_dtend (v : String) :
    extractTag balamtPre balamtSuf (dtendLine v) = none := by
  refine extractTag_none_of_mismatch _ _ "          <DTEND>".data
    (((removeDashes v).data ++ "000000.000[+8:CST]".data)
      ++ "</DTEND>\n".data) _ 11 ?_ (by decide) (by decide) (by decide)
  simp [dtendLine, String.data_append, List.append_assoc]

@[simp] theorem exB_dtasof (v : String) :
    extractTag balamtPre balamtSuf (dtasofLine v) = none := by
  refine extractTag_none_of_mismatch _ _ "          <DTASOF>".data
    (v.data ++ "</DTASOF>\n".data) _ 11 ?_ (by decide) (by decide) (by decide)
  simp [dtasofLine, String.data_append, List.append_assoc]

@[simp] theorem exB_trntype (t : TransactionRecord) :
    extractTag balamtPre balamtSuf (trntypeLine t) = none := by
  refine extractTag_none_of_mismatch _ _ "            <TRNTYPE>".data
    ((if t.income_or_expense = "收入" then "CREDIT" else "DEBIT").data
      ++ "</TRNTYPE>\n".data) _ 10 ?_ (by decide) (by decide) (by decide)
  simp [trntypeLine, String.data_append, List.append_assoc]

@[simp] theorem exB_dtposted (v : String) :
    extractTag balamtPre balamtSuf (dtpostedLine v) = none := by
  refine extractTag_none_of_mismatch _ _ "            <DTPOSTED>".data
    (v.data ++ "</DTPOSTED>\n".data) _ 10 ?_ (by decide) (by decide)
    (by decide)
  simp [dtpostedLine, String.data_append, List.append_assoc]

@[simp] theorem exB_trnamt (t : TransactionRecord) :
    extractTag balamtPre balamtSuf (trnamtLine t) = none := by
  refine extractTag_none_of_mismatch _ _ "            <TRNAMT>".data
    (t.amount_cny.data ++ "</TRNAMT>\n".data) _ 10 ?_ (by decide) (by decide)
    (by decide)
  simp [trnamtLine, String.data_append, List.append_assoc]

@[simp] theorem exB_fitid (t : TransactionRecord) :
    extractTag balamtPre balamtSuf (fitidLine t) = none := by
  refine extractTag_none_of_mismatch _ _ "            <FITID>".data
    (t.transaction_id.data ++ "</FITID>\n".data) _ 10 ?_ (by decide)
    (by decide) (by decide)
  simp [fitidLine, String.data_append, List.append_assoc]

@[simp] theorem exB_name (v : String) :
    extractTag balamtPre balamtSuf (nameLine v) = none := by
  refine extractTag_none_of_mismatch _ _ "            <NAME>".data
    (v.data ++ "</NAME>\n".data) _ 10 ?_ (by decide) (by decide) (by decide)
  simp [nameLine, String.data_append, List.append_assoc]

@[simp] theorem exB_memo (v : String) :
    extractTag balamtPre balamtSuf (memoLine v) = none := by
  refine extractTag_none_of_mismatch _ _ "            <MEMO>".data
    (v.data ++ "</MEMO>\n".data) _ 10 ?_ (by decide) (by decide) (by decide)
  simp [memoLine, String.data_append, List.append_assoc]

@[simp] theorem exB_open :
    extractTag balamtPre balamtSuf stmttrnOpenLine = none := by decide

@[simp] theorem exB_close :
    extractTag balamtPre balamtSuf stmttrnCloseLine = none := by decide

@[simp] theorem exB_balamt_pos (v : String) :
    extractTag balamtPre balamtSuf (balamtLine v) = some v :=
  extractTag_of_shape balamtPre balamtSuf (balamtLine v) v.data
    (by simp [balamtLine, balamtPre, balamtSuf, String.data_append,
      List.append_assoc])

@[simp] theorem cnt_dtserver (v : String) :
    (dtserverLine v == stmttrnOpenLine) = false := by
  refine string_ne_of_mismatch "      <DTSERVER>".data
    (v.data ++ "</DTSERVER>\n".data) _ _ 6 ?_ (by decide) (by decide)
  simp [dtserverLine, String.data_append, List.append_assoc]

@[simp] theorem cnt_acctid (v : String) :
    (acctidLine v == stmttrnOpenLine) = false := by
  refine string_ne_of_mismatch "          <ACCTID>".data
    (v.data ++ "</ACCTID>\n".data) _ _ 11 ?_ (by decide) (by decide)
  simp [acctidLine, String.data_append, List.append_assoc]

@[simp] theorem cnt_dtstart (v : String) :
    (dtstartLine v == stmttrnOpenLine) = false := by
  refine string_ne_of_mismatch "          <DTSTART>".data
    (((removeDashes v).data ++ "000000.000[+8:CST]".data)
      ++ "</DTSTART>\n".data) _ _ 11 ?_ (by decide) (by decide)
  simp [dtstartLine, String.data_append, List.append_assoc]

@[simp] theorem cnt_dtend (v : String) :
    (dtendLine v == stmttrnOpenLine) = false := by
  refine string_ne_of_mismatch "          <DTEND>".data
    (((removeDashes v).data ++ "000000.000[+8:CST]".data)
      ++ "</DTEND>\n".data) _ _ 11 ?_ (by decide) (by decide)
  simp [dtendLine, String.data_append, List.append_assoc]

@[simp] theorem cnt_balamt (v : String) :
    (balamtLine v == stmttrnOpenLine) = false := by
  refine string_ne_of_mismatch "          <BALAMT>".data
    (v.data ++ "</BALAMT>\n".data) _ _ 11 ?_ (by decide) (by decide)
  simp [balamtLine, String.data_append, List.append_assoc]

@[simp] theorem cnt_dtasof (v : String) :
    (dtasofLine v == stmttrnOpenLine) = false := by
  refine string_ne_of_mismatch "          <DTASOF>".data
    (v.data ++ "</DTASOF>\n".data) _ _ 11 ?_ (by decide) (by decide)
  simp [dtasofLine, String.data_append, List.append_assoc]

@[simp] theorem cnt_trntype (t : TransactionRecord) :
    (trntypeLine t == stmttrnOpenLine) = false := by
  refine string_ne_of_mismatch "            <TRNTYPE>".data
    ((if t.income_or_expense = "收入" then "CREDIT" else "DEBIT").data
      ++ "</TRNTYPE>\n".data) _ _ 10 ?_ (by decide) (by decide)
  simp [trntypeLine, String.data_append, List.append_assoc]

@[simp] theorem cnt_dtposted (v : String) :
    (dtpostedLine v == stmttrnOpenLine) = false := by
  refine string_ne_of_mismatch "            <DTPOSTED>".data
    (v.data ++ "</DTPOSTED>\n".data) _ _ 10 ?_ (by decide) (by decide)
  simp [dtpostedLine, String.data_append, List.append_assoc]

@[simp] theorem cnt_trnamt (t : TransactionRecord) :
    (trnamtLine t == stmttrnOpenLine) = false := by
  refine string_ne_of_mismatch "            <TRNAMT>".data
    (t.amount_cny.data ++ "</TRNAMT>\n".data) _ _ 10 ?_ (by decide)
    (by decide)
  simp [trnamtLine, String.data_append, List.append_assoc]

@[simp] theorem cnt_fitid (t : TransactionRecord) :
    (fitidLine t == stmttrnOpenLine) = false := by
  refine string_ne_of_mismatch "            <FITID>".data
    (t.transaction_id.data ++ "</FITID>\n".data) _ _ 10 ?_ (by decide)
    (by decide)
  simp [fitidLine, String.data_append, List.append_assoc]

@[simp] theorem cnt_name (v : String) :
    (nameLine v == stmttrnOpenLine) = false := by
  refine string_ne_of_mismatch "            <NAME>".data
    (v.data ++ "</NAME>\n".data) _ _ 10 ?_ (by decide) (by decide)
  simp [nameLine, String.data_append, List.append_assoc]

@[simp] theorem cnt_memo (v : String) :
    (memoLine v == stmttrnOpenLine) = false := by
  refine string_ne_of_mismatch "            <MEMO>".data
    (v.data ++ "</MEMO>\n".data) _ _ 10 ?_ (by decide) (by decide)
  simp [memoLine, String.data_append, List.append_assoc]

@[simp] theorem cnt_open : (stmttrnOpenLine == stmttrnOpenLine) = true := by
  decide

@[simp] theorem cnt_close : (stmttrnCloseLine == stmttrnOpenLine) = false := by
  decide

@[simp] theorem exF_headerA :
    List.filterMap (extractTag fitidPre fitidSuf) headerA = [] := by decide

@[simp] theorem exF_headerMid1 :
    List.filterMap (extractTag fitidPre fitidSuf) headerMid1 = [] := by decide

@[simp] theorem exF_headerMid2 :
    List.filterMap (extractTag fitidPre fitidSuf) headerMid2 = [] := by decide

@[simp] theorem exF_footerOpen :
    List.filterMap (extractTag fitidPre fitidSuf) footerOpen = [] := by decide

@[simp] theorem exF_footerMid :
    List.filterMap (extractTag fitidPre fitidSuf) footerMid = [] := by decide

@[simp] theorem exF_footerClose :
    List.filterMap (extractTag fitidPre fitidSuf) footerClose = [] := by decide

@[simp] theorem exA_headerA :
    List.filterMap (extractTag trnamtPre trnamtSuf) headerA = [] := by decide

@[simp] theorem exA_headerMid1 :
    List.filterMap (extractTag trnamtPre trnamtSuf) headerMid1 = [] := by
  decide

@[simp] theorem exA_headerMid2 :
    List.filterMap (extractTag trnamtPre trnamtSuf) headerMid2 = [] := by
  decide

@[simp] theorem exA_footerOpen :
    List.filterMap (extractTag trnamtPre trnamtSuf) footerOpen = [] := by
  decide

@[simp] theorem exA_footerMid :
    List.filterMap (extractTag trnamtPre trnamtSuf) footerMid = [] := by
  decide

@[simp] theorem exA_footerClose :
    List.filterMap (extractTag trnamtPre trnamtSuf) footerClose = [] := by
  decide

@[simp] theorem exB_headerA :
    List.filterMap (extractTag balamtPre balamtSuf) headerA = [] := by decide

@[simp] theorem exB_headerMid1 :
    List.filterMap (extractTag balamtPre balamtSuf) headerMid1 = [] := by
  decide

@[simp] theorem exB_headerMid2 :
    List.filterMap (extractTag balamtPre balamtSuf) headerMid2 = [] := by
  decide

@[simp] theorem exB_footerOpen :
    List.filterMap (extractTag balamtPre balamtSuf) footerOpen = [] := by
  decide

@[simp] theorem exB_footerMid :
    List.filterMap (extractTag balamtPre balamtSuf) footerMid = [] := by
  decide

@[simp] theorem exB_footerClose :
    List.filterMap (extractTag balamtPre balamtSuf) footerClose = [] := by
  decide

@[simp] theorem cnt_headerA :
    headerA.countP (fun l => l == stmttrnOpenLine) = 0 := by decide

@[simp] theorem cnt_headerMid1 :
    headerMid1.countP (fun l => l == stmttrnOpenLine) = 0 := by decide

@[simp] theorem cnt_headerMid2 :
    headerMid2.countP (fun l => l == stmttrnOpenLine) = 0 := by decide

@[simp] theorem cnt_footerOpen :
    footerOpen.countP (fun l => l == stmttrnOpenLine) = 0 := by decide

@[simp] theorem cnt_footerMid :
    footerMid.countP (fun l => l == stmttrnOpenLine) = 0 := by decide

@[simp] theorem cnt_footerClose :
    footerClose.countP (fun l => l == stmttrnOpenLine) = 0 := by decide

theorem exF_headerTail (dts : String) (md : Metadata) :
    List.filterMap (extractTag fitidPre fitidSuf) (headerTail dts md)
      = [] := by
  simp [headerTail, List.filterMap_append]

theorem exA_headerTail (dts : String) (md : Metadata) :
    List.filterMap (extractTag trnamtPre trnamtSuf) (headerTail dts md)
      = [] := by
  simp [headerTail, List.filterMap_append]

theorem exB_headerTail (dts : String) (md : Metadata) :
    List.filterMap (extractTag balamtPre balamtSuf) (headerTail dts md)
      = [] := by
  simp [headerTail, List.filterMap_append]

theorem cnt_headerTail (dts : String) (md : Metadata) :
    (headerTail dts md).countP (fun l => l == stmttrnOpenLine) = 0 := by
  simp [headerTail, List.countP_append, List.countP_cons]

theorem exF_footer (dts : String) (md : Metadata) :
    List.filterMap (extractTag fitidPre fitidSuf) (footerLines dts md)
      = [] := by
  simp [footerLines, List.filterMap_append]

theorem exA_footer (dts : String) (md : Metadata) :
    List.filterMap (extractTag trnamtPre trnamtSuf) (footerLines dts md)
      = [] := by
  simp [footerLines, List.filterMap_append]

theorem exB_footer (dts : String) (md : Metadata) :
    List.filterMap (extractTag balamtPre balamtSuf) (footerLines dts md)
      = [md.total_in, md.total_out] := by
  simp [footerLines, List.filterMap_append]

theorem cnt_footer (dts : String) (md : Metadata) :
    (footerLines dts md).countP (fun l => l == stmttrnOpenLine) = 0 := by
  simp [footerLines, List.countP_append, List.countP_cons]

theorem emitBlock_ok (f : String → String) (tl : Option String)
    (t : TransactionRecord) (tr : List (String × String)) (d : String)
    (hd : dt_posted t = Except.ok d) :
    ∃ nm mm tr2, emitBlock f tl t tr
      = ([stmttrnOpenLine, trntypeLine t, dtpostedLine d, trnamtLine t,
          fitidLine t, nameLine nm, memoLine mm, stmttrnCloseLine],
          Except.ok tr2) := by
  rw [emitBlock, hd]
  exact ⟨_, _, _, rfl⟩

theorem emitTransactions_cons_ok (f : String → String) (tl : Option String)
    (t : TransactionRecord) (rest : List TransactionRecord)
    (tr : List (String × String)) (ls : List String)
    (tr2 : List (String × String))
    (hb : emitBlock f tl t tr = (ls, Except.ok tr2)) :
    emitTransactions f tl (t :: rest) tr
      = (ls ++ (emitTransactions f tl rest tr2).1,
        (emitTransactions f tl rest tr2).2) := by
  rw [emitTransactions, hb]

theorem exF_block (t : TransactionRecord) (d nm mm : String) :
    List.filterMap (extractTag fitidPre fitidSuf)
      [stmttrnOpenLine, trntypeLine t, dtpostedLine d, trnamtLine t,
        fitidLine t, nameLine nm, memoLine mm, stmttrnCloseLine]
      = [t.transaction_id] := by
  simp [List.filterMap_cons]

theorem exA_block (t : TransactionRecord) (d nm mm : String) :
    List.filterMap (extractTag trnamtPre trnamtSuf)
      [stmttrnOpenLine, trntypeLine t, dtpostedLine d, trnamtLine t,
        fitidLine t, nameLine nm, memoLine mm, stmttrnCloseLine]
      = [t.amount_cny] := by
  simp [List.filterMap_cons]

theorem exB_block (t : TransactionRecord) (d nm mm : String) :
    List.filterMap (extractTag balamtPre balamtSuf)
      [stmttrnOpenLine, trntypeLine t, dtpostedLine d, trnamtLine t,
        fitidLine t, nameLine nm, memoLine mm, stmttrnCloseLine] = [] := by
  simp [List.filterMap_cons]

theorem cnt_block (t : TransactionRecord) (d nm mm : String) :
    ([stmttrnOpenLine, trntypeLine t, dtpostedLine d, trnamtLine t,
      fitidLine t, nameLine nm, memoLine mm, stmttrnCloseLine]
      : List String).countP (fun l => l == stmttrnOpenLine) = 1 := by
  simp [List.countP_cons]

/-- When every record's posted-date chain succeeds, the transaction loop
succeeds and its output carries exactly the per-record FITID and TRNAMT
contents, one STMTTRN opening tag per record, and no BALAMT content. -/
theorem emit_ok_extract (f : String → String) (tl : Option String)
    (ts : List TransactionRecord)
    (hts : ∀ t ∈ ts, ∃ d, dt_posted t = Except.ok d) :
    ∀ tr, ∃ ls tr2, emitTransactions f tl ts tr = (ls, Except.ok tr2)
      ∧ List.filterMap (extractTag fitidPre fitidSuf) ls
          = ts.map (fun t => t.transaction_id)
      ∧ List.filterMap (extractTag trnamtPre trnamtSuf) ls
          = ts.map (fun t => t.amount_cny)
      ∧ List.filterMap (extractTag balamtPre balamtSuf) ls = []
      ∧ ls.countP (fun l => l == stmttrnOpenLine) = ts.length := by
  induction ts with
  | nil => exact fun tr => ⟨[], tr, rfl, rfl, rfl, rfl, rfl⟩
  | cons t rest ih =>
    intro tr
    obtain ⟨d, hd⟩ := hts t (List.mem_cons_self t rest)
    obtain ⟨nm, mm, tr2, hb⟩ := emitBlock_ok f tl t tr d hd
    obtain ⟨ls2, tr3, he, hf, ha, hbal, hc⟩ :=
      ih (fun u hu => hts u (List.mem_cons_of_mem t hu)) tr2
    refine ⟨[stmttrnOpenLine, trntypeLine t, dtpostedLine d, trnamtLine t,
      fitidLine t, nameLine nm, memoLine mm, stmttrnCloseLine] ++ ls2, tr3,
      ?_, ?_, ?_, ?_, ?_⟩
    · rw [emitTransactions_cons_ok f tl t rest tr _ tr2 hb, he]
    · rw [List.filterMap_append, hf, exF_block t d nm mm]
      rfl
    · rw [List.filterMap_append, ha, exA_block t d nm mm]
      rfl
    · rw [List.filterMap_append, hbal, exB_block t d nm mm]
      rfl
    · rw [List.countP_append, hc, cnt_block t d nm mm]
      simp [List.length_cons]
      omega

/-- C2 (amended): provided the export time and every record's posted
date parse (so that emission completes without a `ValueError`),
`generate_ofx` writes exactly one STMTTRN block per record, in input
order, whose FITID content equals that record's transaction-id field
character for character and whose TRNAMT content equals that record's
amount field character for character (no conversion or reformatting). -/
theorem C2_generate_ofx_blocks (f : String → String)
    (ts : List TransactionRecord) (md : Metadata)
    (tr : List (String × String)) (tl : Option String)
    (hsv : ∃ d, dt_server md = Except.ok d)
    (hts : ∀ t ∈ ts, ∃ d, dt_posted t = Except.ok d) :
    countSTMTTRN (generate_ofx f ts md tr tl).1 = ts.length
    ∧ extractFITIDs (generate_ofx f ts md tr tl).1
        = ts.map (fun t => t.transaction_id)
    ∧ extractTRNAMTs (generate_ofx f ts md tr tl).1
        = ts.map (fun t => t.amount_cny) := by
  obtain ⟨dts, hdts⟩ := hsv
  obtain ⟨ls, tr2, he, hf, ha, hbal, hc⟩ := emit_ok_extract f tl ts hts tr
  have hout : (generate_ofx f ts md tr tl).1
      = headerA ++ headerTail dts md ++ ls ++ footerLines dts md := by
    rw [generate_ofx, hdts, he]
  rw [hout]
  refine ⟨?_, ?_, ?_⟩
  · rw [countSTMTTRN]
    simp only [List.countP_append, cnt_headerA, cnt_headerTail, cnt_footer,
      hc]
    omega
  · rw [extractFITIDs]
    simp only [List.filterMap_append, exF_headerA, exF_headerTail, exF_footer,
      hf]
    simp
  · rw [extractTRNAMTs]
    simp only [List.filterMap_append, exA_headerA, exA_headerTail, exA_footer,
      ha]
    simp

/-- C2 witness: the theorem applied to two concrete records (one income,
one expense) and concrete metadata. -/
theorem C2_witness :
    countSTMTTRN (generate_ofx (fun x => x)
        [sampleIncomeTx, sampleExpenseTx] sampleMd [] none).1 = 2
    ∧ extractFITIDs (generate_ofx (fun x => x)
        [sampleIncomeTx, sampleExpenseTx] sampleMd [] none).1
        = ["20240001", "20240002"]
    ∧ extractTRNAMTs (generate_ofx (fun x => x)
        [sampleIncomeTx, sampleExpenseTx] sampleMd [] none).1
        = ["100.00", "-25.50"] := by
  have hts : ∀ t ∈ [sampleIncomeTx, sampleExpenseTx],
      ∃ d, dt_posted t = Except.ok d := by
    intro t ht
    simp only [List.mem_cons, List.not_mem_nil, or_false] at ht
    rcases ht with rfl | rfl
    · exact ⟨"20240115134500.000[+8:CST]", by decide⟩
    · exact ⟨"20240116100000.000[+8:CST]", by decide⟩
  have h := C2_generate_ofx_blocks (fun x => x)
    [sampleIncomeTx, sampleExpenseTx] sampleMd [] none
    ⟨"20240101000000.000[+8:CST]", rfl⟩ hts
  exact ⟨h.1, h.2.1, h.2.2⟩

/-- C2 counterexample: a record whose date fields do not parse makes
`generate_ofx` raise mid-write, so no FITID line is emitted for it and
the claimed per-record correspondence fails (`[]` against `[X1]`). -/
theorem C2_counterexample_bad_date :
    extractFITIDs (generate_ofx (fun x => x) [sampleBadDateTx] {} []
      none).1 = []
    ∧ [sampleBadDateTx].map (fun t => t.transaction_id) = ["X1"] := by
  exact ⟨by decide, by decide⟩

/-- C7: every emitted transaction block starts with the STMTTRN open tag
followed by its TRNTYPE line, and that line carries CREDIT exactly when
the record's direction field equals the income marker 收入, DEBIT for
every other value (including the empty string). -/
theorem C7_trntype_direction (f : String → String) (tl : Option String)
    (t : TransactionRecord) (tr : List (String × String)) :
    (∃ rest, (emitBlock f tl t tr).1
        = stmttrnOpenLine :: trntypeLine t :: rest)
    ∧ (trntypeLine t = "            <TRNTYPE>CREDIT</TRNTYPE>\n"
        ↔ t.income_or_expense = "收入")
    ∧ (trntypeLine t = "            <TRNTYPE>DEBIT</TRNTYPE>\n"
        ↔ ¬ t.income_or_expense = "收入") := by
  refine ⟨?_, ?_, ?_⟩
  · rw [emitBlock]
    cases dt_posted t with
    | error e => exact ⟨[], rfl⟩
    | ok d => exact ⟨_, rfl⟩
  · by_cases h : t.income_or_expense = "收入"
    · rw [trntypeLine, if_pos h]
      exact ⟨fun _ => h, fun _ => by decide⟩
    · rw [trntypeLine, if_neg h]
      exact ⟨fun he => absurd he (by decide), fun hh => absurd hh h⟩
  · by_cases h : t.income_or_expense = "收入"
    · rw [trntypeLine, if_pos h]
      exact ⟨fun he => absurd he (by decide), fun hn => absurd h hn⟩
    · rw [trntypeLine, if_neg h]
      exact ⟨fun _ => h, fun _ => by decide⟩

/-- C7 witness: the direction mapping evaluated at a concrete income
record and a concrete expense record. -/
theorem C7_witness :
    trntypeLine sampleIncomeTx = "            <TRNTYPE>CREDIT</TRNTYPE>\n"
    ∧ trntypeLine sampleExpenseTx
      = "            <TRNTYPE>DEBIT</TRNTYPE>\n" := by
  have h1 := C7_trntype_direction (fun x => x) none sampleIncomeTx []
  have h2 := C7_trntype_direction (fun x => x) none sampleExpenseTx []
  exact ⟨h1.2.1.mpr (by decide), h2.2.2.mpr (by decide)⟩

/-- C8 (amended): provided emission completes (export time and record
dates parse), `generate_ofx` emits exactly two BALAMT contents: the
LEDGERBAL one equal to the metadata's total-income field and the
AVAILBAL one equal to the metadata's total-expense field, verbatim — the
documented totals-as-balances behavior, preserved as-is. -/
theorem C8_balances_from_totals (f : String → String)
    (ts : List TransactionRecord) (md : Metadata)
    (tr : List (String × String)) (tl : Option String)
    (hsv : ∃ d, dt_server md = Except.ok d)
    (hts : ∀ t ∈ ts, ∃ d, dt_posted t = Except.ok d) :
    extractBALAMTs (generate_ofx f ts md tr tl).1
      = [md.total_in, md.total_out]
    ∧ ∃ dts, dt_server md = Except.ok dts
        ∧ ["        <LEDGERBAL>\n", balamtLine md.total_in,
            dtasofLine dts, "        </LEDGERBAL>\n",
            "        <AVAILBAL>\n", balamtLine md.total_out,
            dtasofLine dts] <:+: (generate_ofx f ts md tr tl).1 := by
  obtain ⟨dts, hdts⟩ := hsv
  obtain ⟨ls, tr2, he, hf, ha, hbal, hc⟩ := emit_ok_extract f tl ts hts tr
  have hout : (generate_ofx f ts md tr tl).1
      = headerA ++ headerTail dts md ++ ls ++ footerLines dts md := by
    rw [generate_ofx, hdts, he]
  refine ⟨?_, dts, hdts, ?_⟩
  · rw [hout, extractBALAMTs]
    simp only [List.filterMap_append, exB_headerA, exB_headerTail, hbal,
      exB_footer]
    simp
  · rw [hout]
    refine ⟨headerA ++ headerTail dts md ++ ls
      ++ ["        </BANKTRANLIST>\n"],
      ["        </AVAILBAL>\n", "      </STMTRS>\n", "    </STMTTRNRS>\n",
        "  </BANKMSGSRSV1>\n", "</OFX>\n"], ?_⟩
    simp [footerLines, footerOpen, footerMid, footerClose]

/-- C8 witness: the theorem applied to concrete metadata with distinct
total-in and total-out values. -/
theorem C8_witness :
    extractBALAMTs (generate_ofx (fun x => x) [] sampleMd [] none).1
      = ["123.45", "67.89"] := by
  have h := C8_balances_from_totals (fun x => x) [] sampleMd [] none
    ⟨"20240101000000.000[+8:CST]", rfl⟩
    (fun t ht => absurd ht (List.not_mem_nil t))
  exact h.1

/-- C8 counterexample: metadata whose export time does not parse makes
`generate_ofx` raise before the balances are written, so no BALAMT
content is emitted, against the claimed `[total_in, total_out]`. -/
theorem C8_counterexample_bad_export_time :
    extractBALAMTs (generate_ofx (fun x => x) []
        { export_time := "bad", total_in := "1.00", total_out := "2.00" }
        [] none).1 = []
    ∧ (["1.00", "2.00"] : List String) ≠ [] := by
  exact ⟨by decide, by decide⟩

theorem tryEncodings_all_fail (decode : String → Option (List String)) :
    ∀ l : List String, (∀ e ∈ l, decode e = none) →
      tryEncodings decode l = Except.error PyError.typeError := by
  intro l
  induction l with
  | nil => exact fun _ => rfl
  | cons e rest ih =>
    intro h
    rw [tryEncodings, h e (List.mem_cons_self e rest)]
    exact ih (fun x hx => h x (List.mem_cons_of_mem e hx))

theorem tryEncodings_first_success (decode : String → Option (List String))
    (l₁ : List String) :
    ∀ (e : String) (l₂ ls : List String), (∀ x ∈ l₁, decode x = none) →
      decode e = some ls →
      tryEncodings decode (l₁ ++ e :: l₂) = Except.ok (e, ls) := by
  induction l₁ with
  | nil =>
    intro e l₂ ls _ hok
    rw [List.nil_append, tryEncodings, hok]
  | cons x t ih =>
    intro e l₂ ls hfail hok
    rw [List.cons_append, tryEncodings, hfail x (List.mem_cons_self x t)]
    exact ih e l₂ ls (fun y hy => hfail y (List.mem_cons_of_mem x hy)) hok

/-- General behavior of the decode loop: when every listed encoding
fails the result is the `TypeError` from the malformed raise, and when
some listed encoding succeeds the first successful one in list order is
used. -/
theorem encodingLoop_behavior (decode : String → Option (List String)) :
    ((∀ e ∈ encoding_list, decode e = none) →
      tryEncodings decode encoding_list = Except.error PyError.typeError)
    ∧ (∀ l₁ e l₂ ls, encoding_list = l₁ ++ e :: l₂ →
        (∀ x ∈ l₁, decode x = none) → decode e = some ls →
          tryEncodings decode encoding_list = Except.ok (e, ls)) := by
  refine ⟨fun h => tryEncodings_all_fail decode encoding_list h,
    fun l₁ e l₂ ls hsp hf hok => ?_⟩
  rw [hsp]
  exact tryEncodings_first_success decode l₁ e l₂ ls hf hok

/-- C6 (code bug, evaluated at the failing input): for a file that none
of the listed encodings decodes, the loop's `else` branch raises — but
what it raises is a `TypeError` (the one-argument `UnicodeDecodeError`
construction at line 46 is itself invalid: that constructor takes five
arguments), not a decoding error as the claim and the spec state.  The
other half of the claim holds: a file that only gbk decodes is read with
gbk, the first listed encoding that succeeds. -/
theorem C6_undecodable_raises_typeError :
    tryEncodings (fun _ => none) encoding_list
      = Except.error PyError.typeError
    ∧ decide (PyError.typeError = PyError.unicodeDecodeError) = false
    ∧ tryEncodings (fun e => if e = "gbk" then some ["line1"] else none)
        encoding_list = Except.ok ("gbk", ["line1"]) := by
  exact ⟨rfl, by decide, rfl⟩

theorem metaLoop_no_header (csvReader : List String → List (List String))
    (allLines : List String) :
    ∀ (rest : List String) (i : Nat) (md : Metadata),
      (∀ l ∈ rest, pyStartsWith l.data "交易号".data = false) →
      ∃ e, metaLoop csvReader allLines rest i md = Except.error e := by
  intro rest
  induction rest with
  | nil => exact fun i md _ => ⟨PyError.unboundLocalError, rfl⟩
  | cons line t ih =>
    intro i md h
    cases hms : metaStep line md with
    | error e =>
      refine ⟨e, ?_⟩
      rw [metaLoop, hms]
    | ok md2 =>
      have hline := h line (List.mem_cons_self line t)
      obtain ⟨e, he⟩ :=
        ih (i + 1) md2 (fun l hl => h l (List.mem_cons_of_mem line hl))
      refine ⟨e, ?_⟩
      rw [metaLoop, hms]
      simp [hline, he]

/-- C9: on any decoded input in which no line begins with the
transaction-header label 交易号, `parse_alipay_file` raises (either an
error from a malformed metadata line, or the `UnboundLocalError` from
reading the never-assigned `transaction_lines`) rather than returning an
empty transaction list together with the metadata. -/
theorem C9_missing_header_raises
    (csvReader : List String → List (List String)) (lines : List String)
    (h : ∀ l ∈ lines, pyStartsWith l.data "交易号".data = false) :
    ∃ e, parse_alipay_file csvReader lines = Except.error e := by
  rw [parse_alipay_file]
  exact metaLoop_no_header csvReader lines lines 0 {} h

/-- C9 witness: the theorem applied to a concrete two-line input with no
transaction header. -/
theorem C9_witness :
    ∃ e, parse_alipay_file (fun ls => ls.map (fun l => [l]))
      ["hello", "world"] = Except.error e :=
  C9_missing_header_raises (fun ls => ls.map (fun l => [l]))
    ["hello", "world"] (by decide)

theorem pySplitP_cons (p : Char → Bool) (c : Char) (l : List Char) :
    pySplitP p (c :: l)
      = match pySplitP p l with
        | a :: as => if p c then [] :: a :: as else (c :: a) :: as
        | [] => [[c]] := rfl

theorem pySplitP_ne_nil (p : Char → Bool) (l : List Char) :
    pySplitP p l ≠ [] := by
  induction l with
  | nil => simp [pySplitP]
  | cons c t ih =>
    rw [pySplitP_cons]
    cases h : pySplitP p t with
    | nil => simp
    | cons a as =>
      by_cases hc : p c <;> simp [hc]

theorem pySplitP_append_head (p : Char → Bool) (a : List Char)
    (h : ∀ c ∈ a, p c = false) :
    ∀ b g gs, pySplitP p b = g :: gs →
      pySplitP p (a ++ b) = (a ++ g) :: gs := by
  induction a with
  | nil =>
    intro b g gs hb
    simpa using hb
  | cons c t ih =>
    intro b g gs hb
    have hc : p c = false := h c (List.mem_cons_self c t)
    have ht := ih (fun x hx => h x (List.mem_cons_of_mem c hx)) b g gs hb
    rw [List.cons_append, pySplitP_cons, ht, hc]
    simp

theorem pySplitP_sepfree (p : Char → Bool) (l : List Char)
    (h : ∀ c ∈ l, p c = false) : pySplitP p l = [l] := by
  have h0 := pySplitP_append_head p l h [] [] [] rfl
  simpa using h0

theorem dropTrailingEmpty_cons (x : List Char) (l : List (List Char))
    (h : l ≠ []) : dropTrailingEmpty (x :: l) = x :: dropTrailingEmpty l := by
  cases l with
  | nil => exact absurd rfl h
  | cons y r => rfl

theorem pySplit_newline_entry (e rest : List Char)
    (he : ∀ c ∈ e, decide (c = '\n') = false) :
    pySplitChar '\n' (e ++ '\n' :: rest) = e :: pySplitChar '\n' rest := by
  have h1 : pySplitChar '\n' ('\n' :: rest) = [] :: pySplitChar '\n' rest := by
    rw [pySplitChar, pySplitP_cons]
    cases hr : pySplitP (fun c => decide (c = '\n')) rest with
    | nil => exact absurd hr (pySplitP_ne_nil _ rest)
    | cons a as => simp [pySplitChar, hr]
  have h2 := pySplitP_append_head (fun c => decide (c = '\n')) e he
    ('\n' :: rest) [] (pySplitChar '\n' rest) h1
  simpa [pySplitChar] using h2

theorem translateNewlines_no_cr (l : List Char) (h : '\r' ∉ l) :
    translateNewlines l = l := by
  induction l with
  | nil => rfl
  | cons c r ih =>
    have hc : ¬ c = '\r' := fun he => h (he ▸ List.mem_cons_self c r)
    have hr := ih (fun hm => h (List.mem_cons_of_mem c hm))
    cases r with
    | nil => rw [translateNewlines, if_neg hc]
    | cons c2 r2 => rw [translateNewlines, if_neg hc, hr]

theorem cr_not_mem_save (m : List (String × String))
    (hcr : ∀ p ∈ m, '\r' ∉ p.1.data ∧ '\r' ∉ p.2.data) :
    '\r' ∉ save_translations_map m := by
  induction m with
  | nil => simp [save_translations_map]
  | cons p rest ih =>
    have hp := hcr p (List.mem_cons_self p rest)
    have hrest := ih (fun q hq => hcr q (List.mem_cons_of_mem p hq))
    intro hmem
    have hsave : save_translations_map (p :: rest)
        = (p.1.data ++ '|' :: p.2.data ++ ['\n'])
          ++ save_translations_map rest := by
      simp [save_translations_map, List.join]
    rw [hsave] at hmem
    simp only [List.mem_append, List.mem_cons, List.mem_singleton,
      List.not_mem_nil, or_false] at hmem
    rcases hmem with ((h1 | h2 | h3) | h4) | h5
    · exact hp.1 h1
    · exact absurd h2 (by decide)
    · exact hp.2 h3
    · exact absurd h4 (by decide)
    · exact hrest h5

theorem splitLines_save (m : List (String × String))
    (hnl : ∀ p ∈ m, ('\n' ∉ p.1.data) ∧ ('\n' ∉ p.2.data)) :
    dropTrailingEmpty (pySplitChar '\n' (save_translations_map m))
      = m.map (fun p => p.1.data ++ '|' :: p.2.data) := by
  induction m with
  | nil => rfl
  | cons p rest ih =>
    have hp := hnl p (List.mem_cons_self p rest)
    have hrest := ih (fun q hq => hnl q (List.mem_cons_of_mem p hq))
    have hentry : ∀ c ∈ p.1.data ++ '|' :: p.2.data,
        decide (c = '\n') = false := by
      intro c hc
      simp only [List.mem_append, List.mem_cons] at hc
      rcases hc with h1 | h2 | h3
      · exact decide_eq_false (fun heq => hp.1 (heq ▸ h1))
      · subst h2
        decide
      · exact decide_eq_false (fun heq => hp.2 (heq ▸ h3))
    have hsave : save_translations_map (p :: rest)
        = (p.1.data ++ '|' :: p.2.data)
          ++ '\n' :: save_translations_map rest := by
      simp [save_translations_map, List.join, List.append_assoc]
    have hne : pySplitChar '\n' (save_translations_map rest) ≠ [] :=
      pySplitP_ne_nil _ _
    rw [hsave, pySplit_newline_entry _ _ hentry,
      dropTrailingEmpty_cons _ _ hne, hrest, List.map_cons]

theorem pyLines_save (m : List (String × String))
    (hnl : ∀ p ∈ m, ('\n' ∉ p.1.data) ∧ ('\n' ∉ p.2.data))
    (hcr : ∀ p ∈ m, ('\r' ∉ p.1.data) ∧ ('\r' ∉ p.2.data)) :
    pyLines (save_translations_map m)
      = m.map (fun p => p.1.data ++ '|' :: p.2.data) := by
  rw [pyLines, translateNewlines_no_cr _ (cr_not_mem_save m hcr)]
  exact splitLines_save m hnl

theorem parseCacheLine_entry (o t : String)
    (hpipeo : '|' ∉ o.data) (hpipet : '|' ∉ t.data)
    (hstrip : pyStrip (o.data ++ '|' :: t.data) = o.data ++ '|' :: t.data) :
    parseCacheLine (o.data ++ '|' :: t.data) = Except.ok (o, t) := by
  rw [parseCacheLine, hstrip]
  have h1 : pySplitChar '|' t.data = [t.data] :=
    pySplitP_sepfree _ t.data
      (fun c hc => decide_eq_false (fun heq => hpipet (heq ▸ hc)))
  have h2 : pySplitChar '|' ('|' :: t.data) = [] :: [t.data] := by
    rw [pySplitChar, pySplitP_cons,
      show pySplitP (fun c => decide (c = '|')) t.data = [t.data] from h1]
    simp
  have h3 : pySplitChar '|' (o.data ++ '|' :: t.data)
      = [o.data, t.data] := by
    have h0 := pySplitP_append_head (fun c => decide (c = '|')) o.data
      (fun c hc => decide_eq_false (fun heq => hpipeo (heq ▸ hc)))
      ('|' :: t.data) [] [t.data] h2
    simpa using h0
  rw [h3]

theorem loadLoop_entries (m : List (String × String))
    (hpipe : ∀ p ∈ m, '|' ∉ p.1.data ∧ '|' ∉ p.2.data)
    (hstrip : ∀ p ∈ m, pyStrip (p.1.data ++ '|' :: p.2.data)
        = p.1.data ++ '|' :: p.2.data)
    (hkeys : (m.map (fun p => p.1)).Nodup) :
    ∀ acc, (∀ p ∈ m, acc.lookup p.1 = none) →
      loadLoop (m.map (fun p => p.1.data ++ '|' :: p.2.data)) acc
        = Except.ok (acc ++ m) := by
  induction m with
  | nil =>
    intro acc _
    simp [loadLoop]
  | cons p rest ih =>
    intro acc hacc
    have hp := hpipe p (List.mem_cons_self p rest)
    have hs := hstrip p (List.mem_cons_self p rest)
    have hknd : p.1 ∉ rest.map (fun q => q.1)
        ∧ (rest.map (fun q => q.1)).Nodup := by
      have hk := hkeys
      rw [List.map_cons, List.nodup_cons] at hk
      exact hk
    have hassign : dictAssign acc p.1 p.2 = acc ++ [p] := by
      rw [dictAssign, if_neg (by simp [hacc p (List.mem_cons_self p rest)])]
    simp only [List.map_cons, loadLoop,
      parseCacheLine_entry p.1 p.2 hp.1 hp.2 hs]
    rw [hassign, ih (fun q hq => hpipe q (List.mem_cons_of_mem p hq))
      (fun q hq => hstrip q (List.mem_cons_of_mem p hq)) hknd.2
      (acc ++ [p]) ?hdis]
    · simp
    case hdis =>
      intro q hq
      rw [lookup_append, hacc q (List.mem_cons_of_mem p hq),
        lookup_singleton_ne q.1 p.1 p.2 ?hne]
      case hne =>
        intro heq
        exact hknd.1 (heq ▸ List.mem_map_of_mem (fun r => r.1) hq)
      rfl

/-- C3 (amended): saving a mapping and reloading from the same contents
restores it, provided no key or value contains the pipe separator, no
key or value contains a newline or a carriage return (text-mode reading
treats both as line breaks), every saved line is unchanged by `strip()`
(keys have no leading whitespace and values no trailing whitespace,
whitespace in Python's full `str.strip()` sense), and the keys are
distinct.  Without the strip condition the claim fails even with no
pipes anywhere — see the counterexample. -/
theorem C3_cache_round_trip (m : List (String × String))
    (hpipe : ∀ p ∈ m, '|' ∉ p.1.data ∧ '|' ∉ p.2.data)
    (hnl : ∀ p ∈ m, '\n' ∉ p.1.data ∧ '\n' ∉ p.2.data)
    (hcr : ∀ p ∈ m, '\r' ∉ p.1.data ∧ '\r' ∉ p.2.data)
    (hstrip : ∀ p ∈ m, pyStrip (p.1.data ++ '|' :: p.2.data)
        = p.1.data ++ '|' :: p.2.data)
    (hkeys : (m.map (fun p => p.1)).Nodup) :
    load_translations_map (save_translations_map m) = Except.ok m := by
  rw [load_translations_map, pyLines_save m hnl hcr]
  have h := loadLoop_entries m hpipe hstrip hkeys [] (fun p _ => rfl)
  simpa using h

/-- C3 witness: the round trip applied to the concrete one-entry mapping
of the spec's example. -/
theorem C3_witness :
    load_translations_map (save_translations_map [("苹果", "Apple")])
      = Except.ok [("苹果", "Apple")] :=
  C3_cache_round_trip [("苹果", "Apple")] (by decide) (by decide)
    (by decide) (by decide) (by decide)

/-- C3 counterexample: the mapping with the single pair (" a", "b")
contains no pipe in any key or value, yet reloading its saved form loses
the key's leading space, so the reloaded mapping no longer binds the key
" a". -/
theorem C3_counterexample_leading_space :
    load_translations_map (save_translations_map [(" a", "b")])
      = Except.ok [("a", "b")]
    ∧ (List.lookup " a" [(("a" : String), ("b" : String))]) = none := by
  exact ⟨by decide, by decide⟩

end AlipayToOfx
